import Mathlib

/-!
Verification of the `drive-auto-sorter` repository's classification-and-routing
pipeline (`src/sorter.py`) against its natural-language specification.

The embedding below translates the decision logic of `ai_sort_files` and its
helpers (`_norm`, `_rule_score`, `_best_profile_by_rules`,
`_best_profile_by_similarity`, `_extract_text`, the per-file pipeline and the
md5-keyed result cache) into executable Lean definitions.

External capabilities (the Google Drive API calls, the OpenAI endpoint inside
`ai_classifier.py`, the PDF/image/xlsx extractor libraries, and difflib's
SequenceMatcher.ratio) are exactly the collaborators the spec declares
out-of-scope interfaces for; they are modelled as parameters in an `Env`
record.  All logic that lives in the repository's own code is translated
definition-for-definition from the source.

Python floats in `_rule_score` / `_best_profile_by_similarity` only ever take
values in { -1, 0, 0.5, 1, 2, ... } and 0.82, on which float arithmetic and
comparison are exact, so they are modelled by ℚ.  Rational constants are given
as literals (Batteries marks ℚ arithmetic irreducible, comparisons reduce).
-/

namespace DAS

/-! ### Python string primitives -/

/-- ASCII whitespace, the characters matched by the regex class backslash-s
used in `_norm` (`re.compile(r"\s+")`). -/
def pyIsSpace (c : Char) : Bool :=
  c = ' ' || c = '\t' || c = '\n' || c = '\r' || c = Char.ofNat 11 || c = Char.ofNat 12

/-- `chPre nee hay`: `nee` is a prefix of `hay` (used to implement Python's
substring test). -/
def chPre : List Char → List Char → Bool
  | [], _ => true
  | _ :: _, [] => false
  | a :: as, b :: bs => a = b && chPre as bs

/-- `chSub nee hay`: `nee` occurs contiguously inside `hay`; Python's
`nee in hay` on strings. -/
def chSub : List Char → List Char → Bool
  | nee, [] => nee.isEmpty
  | nee, b :: bs => chPre nee (b :: bs) || chSub nee bs

/-- Python `needle in hay` for strings. -/
def pyIn (needle hay : String) : Bool := chSub needle.data hay.data

/-- Python `s.startswith(pre)`. -/
def pyStartsWith (s pre : String) : Bool := chPre pre.data s.data

/-- Python `s.endswith(suf)`. -/
def pyEndsWith (s suf : String) : Bool := chPre suf.data.reverse s.data.reverse

/-- Python `s.lower()` (ASCII case mapping suffices for the comparisons made
by the pipeline). -/
def pyLowerStr (s : String) : String := ⟨s.data.map Char.toLower⟩

/-- Python `s.upper()`. -/
def pyUpper (s : String) : String := ⟨s.data.map Char.toUpper⟩

/-- Python `s.strip()` (drop leading/trailing whitespace); applied by
`ai_classifier.py` to the remote model's response. -/
def pyStrip (s : String) : String :=
  ⟨((s.data.dropWhile pyIsSpace).reverse.dropWhile pyIsSpace).reverse⟩

/-- Python slice `s[:n]`. -/
def strTake (s : String) (n : Nat) : String := ⟨s.data.take n⟩

/-- Truthiness of an `Optional[str]`: `None` and `""` are falsy. -/
def pyTruthy : Option String → Bool
  | none => false
  | some s => s ≠ ""

/-- Python `cat or d` for `cat : Optional[str]`. -/
def pyOr (cat : Option String) (d : String) : String :=
  match cat with
  | none => d
  | some s => if s ≠ "" then s else d

/-- Rendering of an `Optional[str]` inside an f-string (`f"no_match:{cat}"`). -/
def pyFmt : Option String → String
  | none => "None"
  | some s => s

/-- `_norm` in `sorter.py`: `re.sub(r"\s+", "", s).lower()` — strip all
whitespace, then lower-case. -/
def norm (s : String) : String := ⟨(s.data.filter (fun c => !pyIsSpace c)).map Char.toLower⟩

/-! ### Python dicts (insertion-ordered, keys unique) -/

/-- A Python `dict` with string keys: association list in insertion order,
keys kept unique by `dinsert`. -/
abbrev PyDict (α : Type) := List (String × α)

/-- `d[k] = v`: replace in place if the key exists (keeping its original
position, as CPython dicts do), else append. -/
def dinsert {α : Type} : PyDict α → String → α → PyDict α
  | [], k, v => [(k, v)]
  | (k', v') :: rest, k, v =>
    if k' = k then (k', v) :: rest else (k', v') :: dinsert rest k v

/-- `d.get(k)`. -/
def dget {α : Type} : PyDict α → String → Option α
  | [], _ => none
  | (k', v) :: rest, k => if k' = k then some v else dget rest k

/-! ### Data model -/

/-- A sub-folder of the parent, as returned by `list_subfolders` (fields
`id,name`). -/
structure Subfolder where
  id : String
  name : String
deriving DecidableEq

/-- A file directly under the parent, as returned by
`list_files_directly_under` (fields `id,name,mimeType`; `parents` is unused by
the pipeline). -/
structure FileInfo where
  id : String
  name : String
  mimeType : String
deriving DecidableEq

/-- The per-file metadata fetched at the content stage
(`service.files().get(fileId=fid, fields="size,md5Checksum")`).  `sizeField`
models `meta.get("size")` (absent → `none`); the code turns both an absent and
a zero size into the integer 0. -/
structure FileMeta where
  sizeField : Option Nat
  md5 : Option String
deriving DecidableEq

/-- The dict returned by a successful `move_file`
(`fields="id,name,parents"`); the caller reads `res.get("id", fid)` and
`res.get("name", fname)`. -/
structure MoveResult where
  id : Option String
  name : Option String
deriving DecidableEq

/-- One entry of `load_category_profiles()` (the configuration capability):
`{description, include[], exclude[]}` with empty defaults. -/
structure BaseProfile where
  description : String
  includeKeywords : List String
  excludeKeywords : List String
deriving DecidableEq

/-- A folder profile as built in `ai_sort_files` (lines 230-236):
`{id, name, description, include, exclude}`. -/
structure Profile where
  id : String
  name : String
  description : String
  includeKeywords : List String
  excludeKeywords : List String
deriving DecidableEq

/-- An element of the `moved` report list.  In the title branches `category`
is the destination folder's name; in the content branch it is the Python
variable `cat`, which can be `None` (the entry is built as
`{"category": cat, ...}`). -/
structure MovedEntry where
  file_id : String
  name : String
  to_folder : String
  category : Option String
  method : String
  ai_label : Option String
deriving DecidableEq

/-- An element of the `skipped` report list. -/
structure SkippedEntry where
  file_id : String
  name : String
  reason : String
deriving DecidableEq

/-- The terminal outcome recorded for one file. -/
inductive Outcome
  | moved (e : MovedEntry)
  | skipped (e : SkippedEntry)
deriving DecidableEq

/-- Ghost instrumentation: which files were passed to `_download_bytes`, and
which files caused an invocation of the remote OpenAI endpoint (one list entry
per remote call attempted, successful or not). -/
structure Effects where
  aiAttempts : List String
  downloads : List String
deriving DecidableEq

/-- State after processing one file: its outcome plus the threaded mutable
state of the run (`cache`, `ai_calls`) and the ghost effect log. -/
structure StepOut where
  outcome : Outcome
  cache : PyDict String
  aiCalls : Nat
  eff : Effects
deriving DecidableEq

/-- The value of `ai_sort_files`: the `(moved, skipped)` report, the cache
dict persisted by `_save_cache`, the final `ai_calls` counter and the ghost
effect log. -/
structure RunResult where
  moved : List MovedEntry
  skipped : List SkippedEntry
  cache : PyDict String
  ai_calls : Nat
  eff : Effects
deriving DecidableEq

/-- The extractor capability (`src/extractors/*`): each library call may throw
(modelled as `Except`), which `_extract_text` converts to `""`.
`decodeIgnore` is `bytes.decode(errors="ignore")`, which cannot fail. -/
structure Extractors where
  pdfBytes : List Nat → Except String String
  imageBytes : List Nat → Except String String
  xlsxBytes : List Nat → Except String String
  decodeIgnore : List Nat → String

/-- The external capabilities consumed by one run:
the storage backend (`getMeta`, `download`, `move` — move failures model
`HttpError`, the class the code catches), the remote classifier endpoint
behind `ai_classifier.py` (`titleAIRaw`, `contentAIRaw` return the raw
response text, or an exception), difflib's `SequenceMatcher.ratio`
(`simScore`), and the extractor libraries. -/
structure Env where
  titleAIRaw : String → List Profile → Except String String
  contentAIRaw : String → String → List Profile → Except String String
  getMeta : String → Except String FileMeta
  download : String → Except String (List Nat)
  move : String → String → Except String MoveResult
  simScore : String → String → ℚ
  ex : Extractors

/-! ### Rule matcher (`_rule_score`, `_best_profile_by_rules`,
`_best_profile_by_similarity`) -/

/-- The float 0.5 returned by `_rule_score`'s name-containment fallback. -/
def halfQ : ℚ := ⟨1, 2, by decide, by decide⟩

/-- `_rule_score(subject, profile)` (sorter.py lines 126-153): empty
normalized subject → 0; any non-empty normalized exclude keyword occurring in
the subject → -1 before includes are looked at; otherwise +1 per matching
include keyword; if that sum is zero, 0.5 when the profile's own normalized
name occurs in the subject, else 0. -/
def rule_score (subject : String) (profile : Profile) : ℚ :=
  let subject_norm := norm subject
  if subject_norm = "" then 0
  else if profile.excludeKeywords.any
      (fun word => (word != "") && (norm word != "") && pyIn (norm word) subject_norm) then
    -1
  else
    let score : ℚ := ((profile.includeKeywords.filter
      (fun word => (word != "") && (norm word != "") && pyIn (norm word) subject_norm)).length : ℚ)
    if score > 0 then score
    else if (norm profile.name != "") && pyIn (norm profile.name) subject_norm then halfQ
    else 0

/-- The fold at the heart of `_best_profile_by_rules`: walk the profiles with
accumulator `(best_profile, best_score)`, skipping negative scores and
updating only on a strict improvement (`score > best_score`). -/
def bprFold (subject : String) (profiles : List Profile)
    (acc : Option Profile × ℚ) : Option Profile × ℚ :=
  profiles.foldl
    (fun acc profile =>
      let score := rule_score subject profile
      if score < 0 then acc
      else if score > acc.2 then (some profile, score)
      else acc)
    acc

/-- `_best_profile_by_rules` (sorter.py lines 156-166): best strictly-positive
score wins; ties keep the earlier profile. -/
def best_profile_by_rules (subject : String) (profiles : List Profile) : Option Profile :=
  let r := bprFold subject profiles (none, 0)
  if r.2 > 0 then r.1 else none

/-- The float 0.82, the default `threshold` of `_best_profile_by_similarity`. -/
def simThreshold : ℚ := ⟨41, 50, by decide, by decide⟩

/-- `_best_profile_by_similarity` (sorter.py lines 169-180), with the ratio
function (difflib) supplied by the environment. -/
def best_profile_by_similarity (ratioFn : String → String → ℚ)
    (title : String) (profiles : List Profile) (threshold : ℚ) : Option Profile :=
  let title_lower := pyLowerStr title
  let r := profiles.foldl
    (fun (acc : Option Profile × ℚ) profile =>
      let rt := ratioFn title_lower (pyLowerStr profile.name)
      if rt > acc.2 then (some profile, rt) else acc)
    (none, 0)
  if r.2 ≥ threshold then r.1 else none

/-! ### Extraction dispatcher (`_extract_text`) -/

/-- `_DEF_PLAIN_EXTS = {".txt", ".csv", ".md"}`. -/
def plainExts : List String := [".txt", ".csv", ".md"]

/-- The image extensions tested by `_extract_text`. -/
def imageExts : List String := [".png", ".jpg", ".jpeg", ".webp", ".heic"]

/-- `_extract_text(name, mime, data)` (sorter.py lines 193-207): a chain of
per-format tests, each accepting on matching MIME **or** matching extension,
tried in the order PDF, image, xlsx, plain text; anything else, and any
extractor exception, yields `""`. -/
def extract_text (ex : Extractors) (name mime : String) (data : List Nat) : String :=
  let nl := pyLowerStr name
  let r : Except String String :=
    if mime = "application/pdf" ∨ pyEndsWith nl ".pdf" = true then
      ex.pdfBytes data
    else if pyStartsWith mime "image/" = true ∨ (imageExts.any (fun e => pyEndsWith nl e)) = true then
      ex.imageBytes data
    else if pyEndsWith nl ".xlsx" = true ∨ mime = "application/vnd.openxmlformats-officedocument.spreadsheetml.sheet" then
      ex.xlsxBytes data
    else if (plainExts.any (fun e => pyEndsWith nl e)) = true then
      Except.ok (ex.decodeIgnore data)
    else Except.ok ""
  match r with
  | Except.ok s => s
  | Except.error _ => ""

/-! ### AI classifier adapter (`ai_classifier.py`) -/

/-- `classify_title_with_ai`: returns `""` without a remote call when there
are no candidate profiles, otherwise the stripped remote response (or the
exception). -/
def classify_title_with_ai (env : Env) (file_name : String)
    (folder_profiles : List Profile) : Except String String :=
  if folder_profiles.isEmpty then Except.ok ""
  else (env.titleAIRaw file_name folder_profiles).map pyStrip

/-- `classify_with_ai`: content-based variant, same shape. -/
def classify_with_ai (env : Env) (file_name text : String)
    (folder_profiles : List Profile) : Except String String :=
  if folder_profiles.isEmpty then Except.ok ""
  else (env.contentAIRaw file_name text folder_profiles).map pyStrip

/-! ### The per-file pipeline of `ai_sort_files` -/

/-- First entry of a dict whose (non-empty) key occurs in `t`; the two
`title_substring` loops of `ai_sort_files` (lines 263-274). -/
def findSubstrDest (d : PyDict Profile) (t : String) : Option Profile :=
  (d.find? (fun kv => (kv.1 != "") && pyIn kv.1 t)).map (fun kv => kv.2)

/-- First entry related to `g` by substring-in-either-direction (non-empty
keys only); the label-resolution loops at lines 312-315 and 381-384. -/
def findEitherDest (d : PyDict Profile) (g : String) : Option Profile :=
  (d.find? (fun kv => (kv.1 != "") && (pyIn kv.1 g || pyIn g kv.1))).map (fun kv => kv.2)

/-- Resolution of a normalized label against `sub_by_norm`: exact key lookup
first, then substring-either-direction (lines 310-315, and identically lines
377-384). -/
def resolveGuess (sub_by_norm : PyDict Profile) (g : String) : Option Profile :=
  match dget sub_by_norm g with
  | some d => some d
  | none => findEitherDest sub_by_norm g

/-- The no-cost title stages (lines 252-280): keyword rules, then normalized
substring, then case-insensitive substring, then fuzzy similarity, each with
its method tag. -/
def titleResolve (env : Env) (folder_profiles : List Profile)
    (sub_by_norm sub_by_lower : PyDict Profile) (fname : String) :
    Option (Profile × String) :=
  match best_profile_by_rules fname folder_profiles with
  | some p => some (p, "title_rule")
  | none =>
    match findSubstrDest sub_by_norm (norm fname) with
    | some p => some (p, "title_substring")
    | none =>
      match findSubstrDest sub_by_lower (pyLowerStr fname) with
      | some p => some (p, "title_substring")
      | none =>
        match best_profile_by_similarity env.simScore fname folder_profiles simThreshold with
        | some p => some (p, "title_similarity")
        | none => none

/-- Result of the `if not cat:` block (lines 344-369): either a `continue`
with a skip reason, or fall-through with the (possibly updated) `cat`,
`cat_method`, cache, counter and effect log. -/
inductive ContentRes
  | skip (reason : String) (cache : PyDict String) (aiCalls : Nat) (eff : Effects)
  | done (cat : Option String) (cat_method : String) (cache : PyDict String)
      (aiCalls : Nat) (eff : Effects)
deriving DecidableEq

/-- The `ai_calls` counter carried by a `ContentRes`. -/
def ContentRes.aiOf : ContentRes → Nat
  | ContentRes.skip _ _ a _ => a
  | ContentRes.done _ _ _ a _ => a

/-- The cache dict carried by a `ContentRes`. -/
def ContentRes.cacheOf : ContentRes → PyDict String
  | ContentRes.skip _ c _ _ => c
  | ContentRes.done _ _ c _ _ => c

/-- The effect log carried by a `ContentRes`. -/
def ContentRes.effOf : ContentRes → Effects
  | ContentRes.skip _ _ _ e => e
  | ContentRes.done _ _ _ _ e => e

/-- The guarded cache write at lines 368-369:
`if md5 and cat and cat.upper() != "NONE": cache[md5] = cat`. -/
def cacheWrite (md5 : Option String) (cat : Option String)
    (cache : PyDict String) : PyDict String :=
  match md5, cat with
  | some m, some c =>
    if m ≠ "" ∧ c ≠ "" ∧ pyUpper c ≠ "NONE" then dinsert cache m c else cache
  | _, _ => cache

/-- The cache lookup at line 341: `cache.get(md5) if md5 else None`. -/
def cacheLookup (md5 : Option String) (cache : PyDict String) : Option String :=
  match md5 with
  | some m => if m ≠ "" then dget cache m else none
  | none => none

/-- Lines 344-369 of `ai_sort_files`: on a cache miss, enforce the AI-call
ceiling, download, extract and truncate text; non-empty text goes to the
keyword rules and then to the content AI; the cache write of lines 368-369
runs on the fall-through paths of the block. -/
def contentClassify (env : Env) (folder_profiles : List Profile)
    (text_max max_files : Nat) (cache : PyDict String) (ai_calls : Nat)
    (eff : Effects) (fid fname mime : String) (md5 : Option String)
    (cat0 : Option String) (cat_method0 : String) : ContentRes :=
  if pyTruthy cat0 = true then ContentRes.done cat0 cat_method0 cache ai_calls eff
  else if max_files ≤ ai_calls then ContentRes.skip "ai_limit_reached" cache ai_calls eff
  else
    let eff1 : Effects := ⟨eff.aiAttempts, eff.downloads ++ [fid]⟩
    match env.download fid with
    | Except.error e => ContentRes.skip ("download_failed:" ++ e) cache ai_calls eff1
    | Except.ok data =>
      let text := strTake (extract_text env.ex fname mime data) text_max
      if text = "" then ContentRes.done cat0 cat_method0 cache ai_calls eff1
      else
        match best_profile_by_rules text folder_profiles with
        | some text_profile =>
          ContentRes.done (some text_profile.name) "content_rule"
            (cacheWrite md5 (some text_profile.name) cache) ai_calls eff1
        | none =>
          let eff2 : Effects :=
            if folder_profiles.isEmpty then eff1
            else ⟨eff1.aiAttempts ++ [fid], eff1.downloads⟩
          match classify_with_ai env fname text folder_profiles with
          | Except.error e => ContentRes.skip ("ai_failed:" ++ e) cache ai_calls eff2
          | Except.ok c =>
            ContentRes.done (some c) "content_ai"
              (cacheWrite md5 (some c) cache) (ai_calls + 1) eff2

/-- Lines 332-403 of `ai_sort_files`: the content stage.  The metadata fetch
at line 333 is **not** inside a try/except, so its failure is returned as
`Except.error` (the exception propagates).  Then: the size ceiling, the cache
lookup, `contentClassify`, the `"NONE"` check, label-to-folder resolution and
the move. -/
def contentStage (env : Env) (folder_profiles : List Profile)
    (sub_by_norm : PyDict Profile) (text_max max_files max_bytes : Nat)
    (cache : PyDict String) (ai_calls : Nat) (eff : Effects)
    (fid fname mime : String) : Except String StepOut :=
  match env.getMeta fid with
  | Except.error e => Except.error e
  | Except.ok meta =>
    let md5 := meta.md5
    let size := meta.sizeField.getD 0
    if size ≠ 0 ∧ max_bytes < size then
      Except.ok ⟨Outcome.skipped ⟨fid, fname, "too_large:" ++ toString size⟩, cache, ai_calls, eff⟩
    else
      let cat0 := cacheLookup md5 cache
      let cat_method0 := if pyTruthy cat0 = true then "cache" else ""
      match contentClassify env folder_profiles text_max max_files cache ai_calls eff
          fid fname mime md5 cat0 cat_method0 with
      | ContentRes.skip reason cache1 ai1 eff1 =>
        Except.ok ⟨Outcome.skipped ⟨fid, fname, reason⟩, cache1, ai1, eff1⟩
      | ContentRes.done cat cat_method cache1 ai1 eff1 =>
        if pyTruthy cat = true ∧ pyUpper (pyOr cat "") = "NONE" then
          Except.ok ⟨Outcome.skipped ⟨fid, fname, "ai_returned_none"⟩, cache1, ai1, eff1⟩
        else
          match resolveGuess sub_by_norm (norm (pyOr cat "")) with
          | none =>
            Except.ok ⟨Outcome.skipped ⟨fid, fname, "no_match:" ++ pyFmt cat⟩, cache1, ai1, eff1⟩
          | some d =>
            match env.move fid d.id with
            | Except.ok res =>
              Except.ok ⟨Outcome.moved
                ⟨res.id.getD fid, res.name.getD fname, d.name, cat,
                  (if cat_method ≠ "" then cat_method else "content"),
                  (if cat_method = "content_ai" ∨ cat_method = "cache" then cat else none)⟩,
                cache1, ai1, eff1⟩
            | Except.error e =>
              Except.ok ⟨Outcome.skipped ⟨fid, fname, "move_failed:" ++ e⟩, cache1, ai1, eff1⟩

/-- The whole per-file body of the loop in `ai_sort_files` (lines 247-403):
title stages, then (when candidates exist) the title-AI stage behind the
call-ceiling guard, then the content stage. -/
def processFile (env : Env) (folder_profiles : List Profile)
    (sub_by_norm sub_by_lower : PyDict Profile)
    (text_max max_files max_bytes : Nat) (cache : PyDict String)
    (ai_calls : Nat) (eff : Effects) (f : FileInfo) : Except String StepOut :=
  match titleResolve env folder_profiles sub_by_norm sub_by_lower f.name with
  | some pm =>
    match env.move f.id pm.1.id with
    | Except.ok res =>
      Except.ok ⟨Outcome.moved
        ⟨res.id.getD f.id, res.name.getD f.name, pm.1.name, some pm.1.name, pm.2, none⟩,
        cache, ai_calls, eff⟩
    | Except.error e =>
      Except.ok ⟨Outcome.skipped ⟨f.id, f.name, "move_failed:" ++ e⟩, cache, ai_calls, eff⟩
  | none =>
    if folder_profiles.isEmpty then
      contentStage env folder_profiles sub_by_norm text_max max_files max_bytes
        cache ai_calls eff f.id f.name f.mimeType
    else if max_files ≤ ai_calls then
      Except.ok ⟨Outcome.skipped ⟨f.id, f.name, "ai_limit_reached"⟩, cache, ai_calls, eff⟩
    else
      let eff1 : Effects := ⟨eff.aiAttempts ++ [f.id], eff.downloads⟩
      match classify_title_with_ai env f.name folder_profiles with
      | Except.error e =>
        Except.ok ⟨Outcome.skipped ⟨f.id, f.name, "title_ai_failed:" ++ e⟩, cache, ai_calls, eff1⟩
      | Except.ok title_guess =>
        if title_guess ≠ "" ∧ pyUpper title_guess ≠ "NONE" then
          match resolveGuess sub_by_norm (norm title_guess) with
          | some d =>
            match env.move f.id d.id with
            | Except.ok res =>
              Except.ok ⟨Outcome.moved
                ⟨res.id.getD f.id, res.name.getD f.name, d.name, some d.name,
                  "title_ai", some title_guess⟩,
                cache, ai_calls + 1, eff1⟩
            | Except.error e =>
              Except.ok ⟨Outcome.skipped ⟨f.id, f.name, "move_failed:" ++ e⟩,
                cache, ai_calls + 1, eff1⟩
          | none =>
            contentStage env folder_profiles sub_by_norm text_max max_files max_bytes
              cache (ai_calls + 1) eff1 f.id f.name f.mimeType
        else
          contentStage env folder_profiles sub_by_norm text_max max_files max_bytes
            cache (ai_calls + 1) eff1 f.id f.name f.mimeType

/-- Lines 225-239: build the ordered profile list and the two lookup dicts
from the sub-folder listing and the configuration
(`profiles_by_name.get(name, {})` with empty-profile defaults). -/
def buildIndex (profiles_by_name : PyDict BaseProfile) (subfolders : List Subfolder) :
    List Profile × PyDict Profile × PyDict Profile :=
  subfolders.foldl
    (fun (acc : List Profile × PyDict Profile × PyDict Profile) s =>
      let bp := (dget profiles_by_name s.name).getD ⟨"", [], []⟩
      let fp : Profile := ⟨s.id, s.name, bp.description, bp.includeKeywords, bp.excludeKeywords⟩
      (acc.1 ++ [fp], dinsert acc.2.1 (norm s.name) fp, dinsert acc.2.2 (pyLowerStr s.name) fp))
    ([], [], [])

/-- `ai_sort_files(service, parent_id, text_max, max_files, max_bytes)`
(sorter.py lines 210-406).  The listings returned by `list_subfolders` /
`list_files_directly_under` and the dict returned by `_load_cache()` are
inputs; the returned `cache` is the dict handed to `_save_cache`.  An
uncaught exception in the loop aborts the run (`Except.error`): later files
are not processed and the cache is not saved.  `runStep` is one iteration of
the loop: it threads the run state through `processFile` and appends the
file's outcome to the report. -/
def runStep (env : Env) (folder_profiles : List Profile)
    (sub_by_norm sub_by_lower : PyDict Profile)
    (text_max max_files max_bytes : Nat)
    (acc : Except String RunResult) (f : FileInfo) : Except String RunResult :=
  match acc with
  | Except.error e => Except.error e
  | Except.ok r =>
    match processFile env folder_profiles sub_by_norm sub_by_lower
        text_max max_files max_bytes r.cache r.ai_calls r.eff f with
    | Except.error e => Except.error e
    | Except.ok so =>
      Except.ok (match so.outcome with
        | Outcome.moved m => ⟨r.moved ++ [m], r.skipped, so.cache, so.aiCalls, so.eff⟩
        | Outcome.skipped s => ⟨r.moved, r.skipped ++ [s], so.cache, so.aiCalls, so.eff⟩)

def ai_sort_files (env : Env) (profiles_by_name : PyDict BaseProfile)
    (subfolders : List Subfolder) (files : List FileInfo)
    (cache0 : PyDict String) (text_max max_files max_bytes : Nat) :
    Except String RunResult :=
  let idx := buildIndex profiles_by_name subfolders
  files.foldl (runStep env idx.1 idx.2.1 idx.2.2 text_max max_files max_bytes)
    (Except.ok ⟨[], [], cache0, 0, ⟨[], []⟩⟩)

/-- `_DEF_TEXT_MAX`. -/
def DEF_TEXT_MAX : Nat := 2000

/-- `_DEF_MAX_FILES`. -/
def DEF_MAX_FILES : Nat := 100

/-- `_DEF_MAX_BYTES` (20 MB). -/
def DEF_MAX_BYTES : Nat := 20 * 1024 * 1024

/-! ### Spec-side definitions used to state the claims -/

/-- Maximum of two rationals (spelled out so that it evaluates). -/
def qmax (a b : ℚ) : ℚ := if a ≤ b then b else a

/-- The largest keyword score any profile of the list attains on `subject`,
floored at 0 (the initial `best_score` of `_best_profile_by_rules`). -/
def maxScore (subject : String) (profiles : List Profile) : ℚ :=
  profiles.foldl (fun a p => qmax a (rule_score subject p)) 0

/-! ### Concrete instances used by witnesses and counterexamples -/

/-- A stub extractor bundle shared by the concrete instantiations below. -/
def exEmpty : Extractors :=
  ⟨fun _ => Except.ok "", fun _ => Except.ok "", fun _ => Except.ok "", fun _ => ""⟩

def psC9 : List Profile :=
  [⟨"a", "A", "", ["alpha"], []⟩, ⟨"b", "B", "", ["alpha"], []⟩]

def envC4 : Env :=
  ⟨fun _ _ => Except.ok "NONE", fun _ _ _ => Except.ok "NONE",
   fun _ => Except.ok ⟨some 1, some "h"⟩, fun _ => Except.error "net",
   fun _ _ => Except.ok ⟨none, none⟩, fun _ _ => 0, exEmpty⟩

def subsC4 : List Subfolder := [⟨"d1", "Alpha"⟩]

def filesC4 : List FileInfo :=
  [⟨"f1", "zz1", "x"⟩, ⟨"f2", "zz2", "x"⟩, ⟨"f3", "zz3", "x"⟩,
   ⟨"f4", "zz4", "x"⟩, ⟨"f5", "zz5", "x"⟩]

def runC4val : RunResult :=
  ⟨[],
   [⟨"f1", "zz1", "download_failed:net"⟩, ⟨"f2", "zz2", "ai_limit_reached"⟩,
    ⟨"f3", "zz3", "ai_limit_reached"⟩, ⟨"f4", "zz4", "ai_limit_reached"⟩,
    ⟨"f5", "zz5", "ai_limit_reached"⟩],
   [], 2, ⟨["f1", "f2"], ["f1"]⟩⟩

/-- C2 counterexample environment: the metadata fetch always fails. -/
def envC2 : Env :=
  ⟨fun _ _ => Except.ok "NONE", fun _ _ _ => Except.ok "X",
   fun _ => Except.error "meta_boom", fun _ => Except.ok [],
   fun _ _ => Except.ok ⟨none, none⟩, fun _ _ => 0, exEmpty⟩

/-- C2 witness environment: metadata fetch succeeds, download fails. -/
def envC2ok : Env :=
  ⟨fun _ _ => Except.ok "NONE", fun _ _ _ => Except.ok "X",
   fun _ => Except.ok ⟨some 1, some "h"⟩, fun _ => Except.error "dl",
   fun _ _ => Except.ok ⟨none, none⟩, fun _ _ => 0, exEmpty⟩

/-- C7 environment: only `move` is reachable; every capability that would
mean a download or an AI call fails loudly. -/
def envC7 : Env :=
  ⟨fun _ _ => Except.error "nocall", fun _ _ _ => Except.error "nocall",
   fun _ => Except.error "nocall", fun _ => Except.error "nocall",
   fun _ _ => Except.ok ⟨none, none⟩, fun _ _ => 0, exEmpty⟩

def subsC7 : List Subfolder := [⟨"dInv", "Invoices"⟩, ⟨"dRec", "Receipts"⟩]

def fileC7 : FileInfo := ⟨"f1", "2024_Invoices_Acme.pdf", "application/pdf"⟩

def runC7val : RunResult :=
  ⟨[⟨"f1", "2024_Invoices_Acme.pdf", "Invoices", some "Invoices", "title_rule", none⟩],
   [], [], 0, ⟨[], []⟩⟩

/-- C1 environment: unsupported MIME/extension, so extraction yields `""`;
the title AI answers "NONE" so the file reaches the content stage. -/
def envC1 : Env :=
  ⟨fun _ _ => Except.ok "NONE", fun _ _ _ => Except.error "nocall",
   fun _ => Except.ok ⟨some 4, some "h9"⟩, fun _ => Except.ok [0, 1],
   fun _ _ => Except.ok ⟨none, none⟩, fun _ _ => 0, exEmpty⟩

def runC1val : RunResult :=
  ⟨[⟨"f1", "data.bin", "Misc", none, "content", none⟩], [], [], 1, ⟨["f1"], ["f1"]⟩⟩

/-- C8 instance: four extractors with distinguishable outputs. -/
def exC8 : Extractors :=
  ⟨fun _ => Except.ok "PDFTEXT", fun _ => Except.ok "IMGTEXT",
   fun _ => Except.ok "XLSTEXT", fun _ => "PLAINTEXT"⟩

/-- C10 instance: metadata reports no size field. -/
def envC10 : Env :=
  ⟨fun _ _ => Except.ok "NONE", fun _ _ _ => Except.ok "NONE",
   fun _ => Except.ok ⟨none, some "h"⟩, fun _ => Except.ok [1, 2, 3, 4, 5],
   fun _ _ => Except.ok ⟨none, none⟩, fun _ _ => 0, exEmpty⟩

/-- C6 instance: plain-text decoding yields "alpha". -/
def exC6 : Extractors :=
  ⟨fun _ => Except.ok "", fun _ => Except.ok "", fun _ => Except.ok "", fun _ => "alpha"⟩

/-- C6 instance: title AI answers NONE; both files share content hash "h". -/
def envC6 : Env :=
  ⟨fun _ _ => Except.ok "NONE", fun _ _ _ => Except.error "unused",
   fun _ => Except.ok ⟨some 5, some "h"⟩, fun _ => Except.ok [9],
   fun _ _ => Except.ok ⟨none, none⟩, fun _ _ => 0, exC6⟩

/-- C6 instance: folder "Alpha" carries the include keyword "alpha". -/
def pbnC6 : PyDict BaseProfile := [("Alpha", ⟨"", ["alpha"], []⟩)]

def runC6val : RunResult :=
  ⟨[⟨"f1", "a1.txt", "Alpha", some "Alpha", "content_rule", none⟩,
    ⟨"f2", "b2.txt", "Alpha", some "Alpha", "cache", some "Alpha"⟩],
   [], [("h", "Alpha")], 2, ⟨["f1", "f2"], ["f1"]⟩⟩

/-- C6 instance: the folder-profile list built for folder "Alpha". -/
def fpC6 : List Profile := [⟨"d1", "Alpha", "", ["alpha"], []⟩]

/-- C6 instance: the normalized lookup dict built for folder "Alpha". -/
def sbnC6 : PyDict Profile := [("alpha", ⟨"d1", "Alpha", "", ["alpha"], []⟩)]

/-- C3 instance: plain-text decoding yields "mystery". -/
def exC3 : Extractors :=
  ⟨fun _ => Except.ok "", fun _ => Except.ok "", fun _ => Except.ok "", fun _ => "mystery"⟩

/-- C3 instance: the content classifier answers a label that maps to no
folder. -/
def envC3 : Env :=
  ⟨fun _ _ => Except.ok "NONE", fun _ _ _ => Except.ok "Whatever",
   fun _ => Except.ok ⟨some 5, some "h1"⟩, fun _ => Except.ok [1],
   fun _ _ => Except.ok ⟨none, none⟩, fun _ _ => 0, exC3⟩

def runC3val : RunResult :=
  ⟨[], [⟨"f1", "doc.txt", "no_match:Whatever"⟩], [("h1", "Whatever")], 2,
   ⟨["f1", "f1"], ["f1"]⟩⟩

/-- C3 instance: the title AI answers a label that maps to a folder. -/
def envTA : Env :=
  ⟨fun _ _ => Except.ok "Invoices", fun _ _ _ => Except.error "x",
   fun _ => Except.error "x", fun _ => Except.error "x",
   fun _ _ => Except.ok ⟨none, none⟩, fun _ _ => 0, exEmpty⟩

/-- C10 instance: metadata reports a large positive size. -/
def envC10big : Env :=
  ⟨fun _ _ => Except.ok "NONE", fun _ _ _ => Except.ok "NONE",
   fun _ => Except.ok ⟨some 1000, some "h"⟩, fun _ => Except.ok [1, 2, 3, 4, 5],
   fun _ _ => Except.ok ⟨none, none⟩, fun _ _ => 0, exEmpty⟩

instance {ε α : Type} [DecidableEq ε] [DecidableEq α] : DecidableEq (Except ε α)
  | Except.ok a, Except.ok b =>
    if h : a = b then Decidable.isTrue (by rw [h])
    else Decidable.isFalse (by intro k; cases k; exact h rfl)
  | Except.error a, Except.error b =>
    if h : a = b then Decidable.isTrue (by rw [h])
    else Decidable.isFalse (by intro k; cases k; exact h rfl)
  | Except.ok _, Except.error _ => Decidable.isFalse (by intro k; cases k)
  | Except.error _, Except.ok _ => Decidable.isFalse (by intro k; cases k)

/-! ### Generic helper lemmas -/

theorem data_append (s t : String) : (s ++ t).data = s.data ++ t.data := rfl

theorem string_data_nil (s : String) (h : s.data = []) : s = "" := by
  cases s
  rw [show "" = String.mk [] from rfl]
  exact congrArg String.mk h

theorem head_append_of_ne_nil {α : Type} (l m : List α) (h : l ≠ []) :
    (l ++ m).head? = l.head? := by
  cases l with
  | nil => exact absurd rfl h
  | cons a as => rfl

/-- Two strings with distinct (existing) first characters stay distinct after
appending arbitrary tails; used to separate the skip reason codes. -/
theorem str_ne_of_head (x b t : String) (hb : b.data ≠ [])
    (h : x.data.head? ≠ b.data.head?) : x ≠ b ++ t := by
  intro he
  apply h
  rw [he, data_append, head_append_of_ne_nil _ _ hb]

theorem strapp_ne_of_head (a s b t : String) (ha : a.data ≠ []) (hb : b.data ≠ [])
    (h : a.data.head? ≠ b.data.head?) : a ++ s ≠ b ++ t := by
  intro he
  apply h
  have h2 := congrArg String.data he
  rw [data_append, data_append] at h2
  rw [← head_append_of_ne_nil a.data s.data ha, h2, head_append_of_ne_nil _ _ hb]

theorem dget_dinsert_self {α : Type} (d : PyDict α) (k : String) (v : α) :
    dget (dinsert d k v) k = some v := by
  induction d with
  | nil => simp [dinsert, dget]
  | cons kv rest ih =>
    obtain ⟨k', v'⟩ := kv
    by_cases h : k' = k
    · simp [dinsert, dget, h]
    · simp [dinsert, dget, h, ih]

/-! ### Lemmas on the rule-matcher fold -/

theorem qmax_left_le (a b : ℚ) : a ≤ qmax a b := by
  unfold qmax
  split
  · assumption
  · exact le_refl a

theorem qmax_eq_left (a b : ℚ) (h : b ≤ a) : qmax a b = a := by
  unfold qmax
  split
  · next h' => exact le_antisymm h h'
  · rfl

theorem qmax_eq_right (a b : ℚ) (h : a ≤ b) : qmax a b = b := by
  unfold qmax
  split
  · rfl
  · next h' => exact absurd h h'

theorem foldmax_base_le (s : String) (ps : List Profile) (bs : ℚ) :
    bs ≤ ps.foldl (fun a p => qmax a (rule_score s p)) bs := by
  induction ps generalizing bs with
  | nil => exact le_refl bs
  | cons p ps ih =>
    rw [List.foldl_cons]
    exact le_trans (qmax_left_le bs (rule_score s p)) (ih _)

theorem bprFold_cons (s : String) (p : Profile) (ps : List Profile)
    (b : Option Profile) (bs : ℚ) :
    bprFold s (p :: ps) (b, bs) =
      bprFold s ps
        (if rule_score s p < 0 then (b, bs)
         else if bs < rule_score s p then (some p, rule_score s p) else (b, bs)) := rfl

theorem bprFold_snd (s : String) (ps : List Profile) : ∀ (b : Option Profile) (bs : ℚ),
    0 ≤ bs →
    (bprFold s ps (b, bs)).2 = ps.foldl (fun a p => qmax a (rule_score s p)) bs := by
  induction ps with
  | nil => intro b bs _; rfl
  | cons p ps ih =>
    intro b bs hbs
    rw [bprFold_cons, List.foldl_cons]
    by_cases hneg : rule_score s p < 0
    · rw [if_pos hneg, qmax_eq_left bs _ (le_of_lt (lt_of_lt_of_le hneg hbs))]
      exact ih b bs hbs
    · rw [if_neg hneg]
      by_cases hgt : bs < rule_score s p
      · rw [if_pos hgt, qmax_eq_right bs _ (le_of_lt hgt)]
        exact ih (some p) _ (le_of_not_lt hneg)
      · rw [if_neg hgt, qmax_eq_left bs _ (le_of_not_lt hgt)]
        exact ih b bs hbs

theorem bprFold_fst (s : String) (ps : List Profile) : ∀ (b : Option Profile) (bs : ℚ),
    0 ≤ bs →
    (bprFold s ps (b, bs)).1 =
      if bs < ps.foldl (fun a p => qmax a (rule_score s p)) bs then
        ps.find? (fun p =>
          decide (ps.foldl (fun a p => qmax a (rule_score s p)) bs ≤ rule_score s p))
      else b := by
  induction ps with
  | nil =>
    intro b bs _
    rw [List.foldl_nil, if_neg (lt_irrefl bs)]
    rfl
  | cons p ps ih =>
    intro b bs hbs
    rw [bprFold_cons, List.foldl_cons]
    by_cases hneg : rule_score s p < 0
    · rw [if_pos hneg, qmax_eq_left bs _ (le_of_lt (lt_of_lt_of_le hneg hbs)),
        ih b bs hbs]
      by_cases h1 : bs < ps.foldl (fun a p => qmax a (rule_score s p)) bs
      · rw [if_pos h1, if_pos h1]
        simp only [List.find?_cons]
        rw [decide_eq_false (not_le.mpr
          (lt_of_lt_of_le hneg (le_trans hbs (foldmax_base_le s ps bs))))]
      · rw [if_neg h1, if_neg h1]
    · rw [if_neg hneg]
      by_cases hgt : bs < rule_score s p
      · rw [if_pos hgt, qmax_eq_right bs _ (le_of_lt hgt),
          ih (some p) _ (le_of_not_lt hneg)]
        have hbase := foldmax_base_le s ps (rule_score s p)
        rw [if_pos (lt_of_lt_of_le hgt hbase)]
        simp only [List.find?_cons]
        by_cases hM : ps.foldl (fun a p => qmax a (rule_score s p)) (rule_score s p) ≤
            rule_score s p
        · rw [decide_eq_true hM, if_neg (not_lt.mpr hM)]
        · rw [decide_eq_false hM, if_pos (lt_of_not_le hM)]
      · rw [if_neg hgt, qmax_eq_left bs _ (le_of_not_lt hgt), ih b bs hbs]
        by_cases h1 : bs < ps.foldl (fun a p => qmax a (rule_score s p)) bs
        · rw [if_pos h1, if_pos h1]
          simp only [List.find?_cons]
          rw [decide_eq_false (not_le.mpr
            (lt_of_le_of_lt (le_of_not_lt hgt) h1))]
        · rw [if_neg h1, if_neg h1]

theorem bprFold_score_eq (s : String) (ps : List Profile) : ∀ (b : Option Profile) (bs : ℚ),
    (∀ p, b = some p → rule_score s p = bs) →
    ∀ q, (bprFold s ps (b, bs)).1 = some q →
      rule_score s q = (bprFold s ps (b, bs)).2 := by
  induction ps with
  | nil => intro b bs hb q hq; exact hb q hq
  | cons p ps ih =>
    intro b bs hb q
    rw [bprFold_cons]
    by_cases hneg : rule_score s p < 0
    · rw [if_pos hneg]; exact ih b bs hb q
    · rw [if_neg hneg]
      by_cases hgt : bs < rule_score s p
      · rw [if_pos hgt]
        refine ih (some p) (rule_score s p) ?_ q
        intro p' hp'
        rw [← Option.some.inj hp']
      · rw [if_neg hgt]; exact ih b bs hb q

theorem best_profile_pos (s : String) (ps : List Profile) (q : Profile)
    (h : best_profile_by_rules s ps = some q) : 0 < rule_score s q := by
  rw [show best_profile_by_rules s ps =
    (if (bprFold s ps (none, 0)).2 > 0 then (bprFold s ps (none, 0)).1 else none) from rfl] at h
  by_cases hpos : (bprFold s ps (none, 0)).2 > 0
  · rw [if_pos hpos] at h
    rw [bprFold_score_eq s ps none 0 (by intro p hp; exact Option.noConfusion hp) q h]
    exact hpos
  · rw [if_neg hpos] at h
    exact Option.noConfusion h

/-- If an exclude keyword (with non-empty normalization) of the profile occurs
in the normalized subject, `_rule_score` rejects with -1. -/
theorem rule_score_neg_of_exclude (subject : String) (profile : Profile) (w : String)
    (hw : w ∈ profile.excludeKeywords) (hn : norm w ≠ "")
    (hsub : pyIn (norm w) (norm subject) = true) : rule_score subject profile < 0 := by
  have hsn : ¬ (norm subject = "") := by
    intro h0
    rw [h0] at hsub
    have hd : (norm w).data.isEmpty = true := hsub
    exact hn (string_data_nil _ (by
      cases he : (norm w).data
      · rfl
      · rw [he] at hd; exact Bool.noConfusion hd))
  have hw0 : w ≠ "" := by
    intro h
    rw [h] at hn
    exact hn rfl
  have hany : profile.excludeKeywords.any
      (fun word => (word != "") && (norm word != "") && pyIn (norm word) (norm subject)) = true := by
    rw [List.any_eq_true]
    refine ⟨w, hw, ?_⟩
    rw [Bool.and_eq_true, Bool.and_eq_true]
    exact ⟨⟨by simp [hw0], by simp [hn]⟩, hsub⟩
  simp only [rule_score]
  rw [if_neg hsn, if_pos hany]
  decide

/-- C5: an exclude-keyword hit makes `_rule_score` return a value strictly
below zero (the sentinel -1), independently of the include keywords, and
`_best_profile_by_rules` can then never return that profile as best match for
the subject. -/
theorem c5_exclude_precedence (subject : String) (profile : Profile) (w : String)
    (hw : w ∈ profile.excludeKeywords) (hn : norm w ≠ "")
    (hsub : pyIn (norm w) (norm subject) = true) :
    rule_score subject profile < 0 ∧
    (∀ incl : List String,
      rule_score subject
        ⟨profile.id, profile.name, profile.description, incl, profile.excludeKeywords⟩ < 0) ∧
    (∀ profiles : List Profile, best_profile_by_rules subject profiles ≠ some profile) := by
  refine ⟨rule_score_neg_of_exclude subject profile w hw hn hsub, ?_, ?_⟩
  · intro incl
    exact rule_score_neg_of_exclude subject
      ⟨profile.id, profile.name, profile.description, incl, profile.excludeKeywords⟩ w hw hn hsub
  · intro profiles heq
    exact absurd (best_profile_pos subject profiles profile heq)
      (not_lt.mpr (le_of_lt (rule_score_neg_of_exclude subject profile w hw hn hsub)))

theorem c5_witness :
    rule_score "report alpha beta" ⟨"i1", "P", "", ["beta"], ["alpha"]⟩ < 0 ∧
    best_profile_by_rules "report alpha beta"
        [⟨"i1", "P", "", ["beta"], ["alpha"]⟩] ≠
      some ⟨"i1", "P", "", ["beta"], ["alpha"]⟩ :=
  ⟨(c5_exclude_precedence "report alpha beta" ⟨"i1", "P", "", ["beta"], ["alpha"]⟩
      "alpha" (by decide) (by decide) (by decide)).1,
   (c5_exclude_precedence "report alpha beta" ⟨"i1", "P", "", ["beta"], ["alpha"]⟩
      "alpha" (by decide) (by decide) (by decide)).2.2
     [⟨"i1", "P", "", ["beta"], ["alpha"]⟩]⟩

/-- C9: when the maximal keyword score over the candidate list is positive,
`_best_profile_by_rules` returns exactly the first profile (in enumeration
order) attaining it — ties are broken first-seen, and the choice is a pure
function of the input list, hence deterministic across repeated evaluations. -/
theorem c9_first_seen_tiebreak (subject : String) (profiles : List Profile)
    (h : 0 < maxScore subject profiles) :
    best_profile_by_rules subject profiles =
      profiles.find? (fun p => decide (maxScore subject profiles ≤ rule_score subject p)) := by
  rw [show best_profile_by_rules subject profiles =
    (if (bprFold subject profiles (none, 0)).2 > 0 then (bprFold subject profiles (none, 0)).1
     else none) from rfl]
  rw [bprFold_snd subject profiles none 0 (le_refl 0),
    bprFold_fst subject profiles none 0 (le_refl 0)]
  rw [show maxScore subject profiles =
    profiles.foldl (fun a p => qmax a (rule_score subject p)) 0 from rfl] at h
  rw [if_pos h, if_pos h]
  rfl


theorem c9_witness :
    0 < maxScore "alpha doc" psC9 ∧
    best_profile_by_rules "alpha doc" psC9 =
      psC9.find? (fun p => decide (maxScore "alpha doc" psC9 ≤ rule_score "alpha doc" p)) :=
  ⟨by decide, c9_first_seen_tiebreak "alpha doc" psC9 (by decide)⟩

/-! ### The AI-call counter (C4) -/

theorem contentClassify_ai_le (env : Env) (fp : List Profile) (tm mf : Nat)
    (cache : PyDict String) (ai : Nat) (eff : Effects) (fid fname mime : String)
    (md5 : Option String) (cat0 : Option String) (cm0 : String) (h : ai ≤ mf) :
    (contentClassify env fp tm mf cache ai eff fid fname mime md5 cat0 cm0).aiOf ≤ mf := by
  simp only [contentClassify]
  split
  · exact h
  · split
    · exact h
    · next hnle =>
      split
      · exact h
      · split
        · exact h
        · split
          · exact h
          · split
            · exact h
            · exact Nat.succ_le_of_lt (Nat.lt_of_not_le hnle)

theorem contentStage_ai_le (env : Env) (fp : List Profile) (sbn : PyDict Profile)
    (tm mf mb : Nat) (cache : PyDict String) (ai : Nat) (eff : Effects)
    (fid fname mime : String) (so : StepOut) (h : ai ≤ mf)
    (hso : contentStage env fp sbn tm mf mb cache ai eff fid fname mime = Except.ok so) :
    so.aiCalls ≤ mf := by
  simp only [contentStage] at hso
  split at hso
  · exact Except.noConfusion hso
  · rename_i meta hmeta
    split at hso
    · injection hso with h2
      rw [← h2]
      exact h
    · split at hso
      · rename_i reason cache1 ai1 eff1 heq
        injection hso with h2
        rw [← h2]
        have hle := contentClassify_ai_le env fp tm mf cache ai eff fid fname mime
          meta.md5 (cacheLookup meta.md5 cache)
          (if pyTruthy (cacheLookup meta.md5 cache) = true then "cache" else "") h
        rw [heq] at hle
        exact hle
      · rename_i cat cm cache1 ai1 eff1 heq
        have hai1 : ai1 ≤ mf := by
          have hle := contentClassify_ai_le env fp tm mf cache ai eff fid fname mime
            meta.md5 (cacheLookup meta.md5 cache)
            (if pyTruthy (cacheLookup meta.md5 cache) = true then "cache" else "") h
          rw [heq] at hle
          exact hle
        split at hso
        · injection hso with h2; rw [← h2]; exact hai1
        · split at hso
          · injection hso with h2; rw [← h2]; exact hai1
          · split at hso
            · injection hso with h2; rw [← h2]; exact hai1
            · injection hso with h2; rw [← h2]; exact hai1

theorem processFile_ai_le (env : Env) (fp : List Profile) (sbn sbl : PyDict Profile)
    (tm mf mb : Nat) (cache : PyDict String) (ai : Nat) (eff : Effects)
    (f : FileInfo) (so : StepOut) (h : ai ≤ mf)
    (hso : processFile env fp sbn sbl tm mf mb cache ai eff f = Except.ok so) :
    so.aiCalls ≤ mf := by
  simp only [processFile] at hso
  split at hso
  · split at hso
    · injection hso with h2; rw [← h2]; exact h
    · injection hso with h2; rw [← h2]; exact h
  · split at hso
    · exact contentStage_ai_le _ _ _ _ _ _ _ _ _ _ _ _ so h hso
    · split at hso
      · injection hso with h2; rw [← h2]; exact h
      · next hnle =>
        have h1 : ai + 1 ≤ mf := Nat.succ_le_of_lt (Nat.lt_of_not_le hnle)
        split at hso
        · injection hso with h2; rw [← h2]; exact h
        · split at hso
          · split at hso
            · split at hso
              · injection hso with h2; rw [← h2]; exact h1
              · injection hso with h2; rw [← h2]; exact h1
            · exact contentStage_ai_le _ _ _ _ _ _ _ _ _ _ _ _ so h1 hso
          · exact contentStage_ai_le _ _ _ _ _ _ _ _ _ _ _ _ so h1 hso

theorem runStep_ai_le (env : Env) (fp : List Profile) (sbn sbl : PyDict Profile)
    (tm mf mb : Nat) (acc : Except String RunResult)
    (hinv : ∀ r0, acc = Except.ok r0 → r0.ai_calls ≤ mf) (f : FileInfo) :
    ∀ r1, runStep env fp sbn sbl tm mf mb acc f = Except.ok r1 → r1.ai_calls ≤ mf := by
  intro r1 h1
  simp only [runStep] at h1
  split at h1
  · exact Except.noConfusion h1
  · rename_i r
    split at h1
    · exact Except.noConfusion h1
    · rename_i so heq2
      injection h1 with h2
      have hso : so.aiCalls ≤ mf :=
        processFile_ai_le _ _ _ _ _ _ _ _ _ _ _ so (hinv r rfl) heq2
      rw [← h2]
      cases so.outcome <;> exact hso

theorem runFold_ai_le (env : Env) (fp : List Profile) (sbn sbl : PyDict Profile)
    (tm mf mb : Nat) :
    ∀ (files : List FileInfo) (acc : Except String RunResult),
    (∀ r0, acc = Except.ok r0 → r0.ai_calls ≤ mf) →
    ∀ r, files.foldl (runStep env fp sbn sbl tm mf mb) acc = Except.ok r →
      r.ai_calls ≤ mf := by
  intro files
  induction files with
  | nil => intro acc hinv r h; exact hinv r h
  | cons f fs ih =>
    intro acc hinv r h
    rw [List.foldl_cons] at h
    exact ih _ (runStep_ai_le env fp sbn sbl tm mf mb acc hinv f) r h

/-- C4: the combined title+content AI-call counter of a run never exceeds
`max_files` (the guard `ai_calls >= max_files` is checked before every call
and the counter is only incremented after passing it), and once the ceiling
is reached, a file that the free title stages do not resolve — one whose
classification would require an AI call — is skipped with reason
`ai_limit_reached` with counter, cache and effect log unchanged: the call is
not attempted. -/
theorem c4_ai_call_ceiling :
    (∀ env pbn subs files cache0 tm mf mb r,
      ai_sort_files env pbn subs files cache0 tm mf mb = Except.ok r →
      r.ai_calls ≤ mf) ∧
    (∀ env fp sbn sbl tm mf mb cache ai eff (f : FileInfo),
      titleResolve env fp sbn sbl f.name = none → fp ≠ [] → mf ≤ ai →
      processFile env fp sbn sbl tm mf mb cache ai eff f =
        Except.ok ⟨Outcome.skipped ⟨f.id, f.name, "ai_limit_reached"⟩, cache, ai, eff⟩) := by
  constructor
  · intro env pbn subs files cache0 tm mf mb r h
    simp only [ai_sort_files] at h
    refine runFold_ai_le env _ _ _ tm mf mb files _ ?_ r h
    intro r0 h0
    injection h0 with h1
    rw [← h1]
    exact Nat.zero_le mf
  · intro env fp sbn sbl tm mf mb cache ai eff f htitle hfp hle
    simp only [processFile, htitle]
    rw [if_neg (by
      cases fp with
      | nil => exact absurd rfl hfp
      | cons a l => intro hx; exact Bool.noConfusion hx)]
    rw [if_pos hle]






theorem c4_witness :
    runC4val.ai_calls ≤ 2 ∧
    processFile envC4 (buildIndex [] subsC4).1 (buildIndex [] subsC4).2.1
        (buildIndex [] subsC4).2.2 2000 2 99 [] 2 ⟨[], []⟩ ⟨"f9", "zz9", "x"⟩ =
      Except.ok ⟨Outcome.skipped ⟨"f9", "zz9", "ai_limit_reached"⟩, [], 2, ⟨[], []⟩⟩ :=
  ⟨c4_ai_call_ceiling.1 envC4 [] subsC4 filesC4 [] 2000 2 99 runC4val (by decide),
   c4_ai_call_ceiling.2 envC4 (buildIndex [] subsC4).1 (buildIndex [] subsC4).2.1
     (buildIndex [] subsC4).2.2 2000 2 99 [] 2 ⟨[], []⟩ ⟨"f9", "zz9", "x"⟩
     (by decide) (by decide) (le_refl 2)⟩

/-! ### Totality of the per-file pipeline except the metadata fetch (C2) -/

theorem contentStage_total (env : Env) (fp : List Profile) (sbn : PyDict Profile)
    (tm mf mb : Nat) (cache : PyDict String) (ai : Nat) (eff : Effects)
    (fid fname mime : String) (meta : FileMeta)
    (hm : env.getMeta fid = Except.ok meta) :
    ∃ so, contentStage env fp sbn tm mf mb cache ai eff fid fname mime = Except.ok so := by
  simp only [contentStage, hm]
  split
  · exact ⟨_, rfl⟩
  · split
    · exact ⟨_, rfl⟩
    · split
      · exact ⟨_, rfl⟩
      · split
        · exact ⟨_, rfl⟩
        · split
          · exact ⟨_, rfl⟩
          · exact ⟨_, rfl⟩

theorem processFile_total (env : Env) (fp : List Profile) (sbn sbl : PyDict Profile)
    (tm mf mb : Nat) (cache : PyDict String) (ai : Nat) (eff : Effects)
    (f : FileInfo) (meta : FileMeta)
    (hm : env.getMeta f.id = Except.ok meta) :
    ∃ so, processFile env fp sbn sbl tm mf mb cache ai eff f = Except.ok so := by
  simp only [processFile]
  split
  · split
    · exact ⟨_, rfl⟩
    · exact ⟨_, rfl⟩
  · split
    · exact contentStage_total _ _ _ _ _ _ _ _ _ _ _ _ meta hm
    · split
      · exact ⟨_, rfl⟩
      · split
        · exact ⟨_, rfl⟩
        · split
          · split
            · split
              · exact ⟨_, rfl⟩
              · exact ⟨_, rfl⟩
            · exact contentStage_total _ _ _ _ _ _ _ _ _ _ _ _ meta hm
          · exact contentStage_total _ _ _ _ _ _ _ _ _ _ _ _ meta hm

theorem runFold_total (env : Env) (fp : List Profile) (sbn sbl : PyDict Profile)
    (tm mf mb : Nat) :
    ∀ (files : List FileInfo) (r0 : RunResult),
    (∀ f, f ∈ files → ∃ meta, env.getMeta f.id = Except.ok meta) →
    ∃ r, files.foldl (runStep env fp sbn sbl tm mf mb) (Except.ok r0) = Except.ok r := by
  intro files
  induction files with
  | nil => intro r0 _; exact ⟨r0, rfl⟩
  | cons f fs ih =>
    intro r0 hmeta
    rw [List.foldl_cons]
    obtain ⟨meta, hm⟩ := hmeta f (List.mem_cons_self f fs)
    obtain ⟨so, hso⟩ :=
      processFile_total env fp sbn sbl tm mf mb r0.cache r0.ai_calls r0.eff f meta hm
    have hstep : runStep env fp sbn sbl tm mf mb (Except.ok r0) f =
        Except.ok (match so.outcome with
          | Outcome.moved m => ⟨r0.moved ++ [m], r0.skipped, so.cache, so.aiCalls, so.eff⟩
          | Outcome.skipped s => ⟨r0.moved, r0.skipped ++ [s], so.cache, so.aiCalls, so.eff⟩) := by
      simp only [runStep, hso]
    rw [hstep]
    exact ih _ (fun g hg => hmeta g (List.mem_cons_of_mem f hg))

/-- C2 counterexample: a metadata-fetch failure for the first file is not
caught anywhere in `ai_sort_files`; the exception propagates out of the run
(no report is produced, and the second file is never processed), contradicting
the claim that a storage failure affecting a single file is always recovered
locally as a skip. -/
theorem c2_counterexample :
    ai_sort_files envC2 [] [⟨"d1", "Alpha"⟩] [⟨"f1", "zzz", "x"⟩, ⟨"f2", "good", "x"⟩]
      [] 2000 100 99 = Except.error "meta_boom" := by decide

/-- C2 (amended): every per-file failure mode other than the metadata fetch —
download, extraction, AI call, move — is caught and turned into a skip record,
so whenever the metadata fetch of a file succeeds its processing returns
normally; and a run in which every file's metadata fetch succeeds always
returns a report. Only the unguarded metadata fetch aborts the run. -/
theorem c2_amended :
    (∀ env fp sbn sbl tm mf mb cache ai eff (f : FileInfo) meta,
      env.getMeta f.id = Except.ok meta →
      ∃ so, processFile env fp sbn sbl tm mf mb cache ai eff f = Except.ok so) ∧
    (∀ env pbn subs files cache0 tm mf mb,
      (∀ f, f ∈ files → ∃ meta, env.getMeta f.id = Except.ok meta) →
      ∃ r, ai_sort_files env pbn subs files cache0 tm mf mb = Except.ok r) := by
  constructor
  · intro env fp sbn sbl tm mf mb cache ai eff f meta hm
    exact processFile_total env fp sbn sbl tm mf mb cache ai eff f meta hm
  · intro env pbn subs files cache0 tm mf mb hmeta
    simp only [ai_sort_files]
    exact runFold_total env _ _ _ tm mf mb files ⟨[], [], cache0, 0, ⟨[], []⟩⟩ hmeta

theorem c2_witness :
    (∃ so, processFile envC2ok [] [] [] 2000 100 99 [] 0 ⟨[], []⟩ ⟨"f1", "n", "m"⟩ =
      Except.ok so) ∧
    (∃ r, ai_sort_files envC2ok [] [⟨"d1", "Alpha"⟩] [⟨"f1", "n", "m"⟩] [] 2000 100 99 =
      Except.ok r) :=
  ⟨c2_amended.1 envC2ok [] [] [] 2000 100 99 [] 0 ⟨[], []⟩ ⟨"f1", "n", "m"⟩
     ⟨some 1, some "h"⟩ rfl,
   c2_amended.2 envC2ok [] [⟨"d1", "Alpha"⟩] [⟨"f1", "n", "m"⟩] [] 2000 100 99
     (fun _ _ => ⟨⟨some 1, some "h"⟩, rfl⟩)⟩

/-! ### C7: the worked example resolves via title_rule, not title_substring -/

/-- C7 counterexample: with sub-folders Invoices/Receipts (empty keyword
configuration) and file "2024_Invoices_Acme.pdf", the run moves the file to
Invoices with method tag "title_rule" — the 0.5 name-containment fallback of
`_rule_score` fires in the first title stage — so no entry carries the
claimed method tag "title_substring". -/
theorem c7_counterexample :
    ai_sort_files envC7 [] subsC7 [fileC7] [] 2000 100 DEF_MAX_BYTES = Except.ok runC7val ∧
    (∀ e, e ∈ runC7val.moved → e.method ≠ "title_substring") :=
  ⟨by decide, by decide⟩

/-- C7 (amended): the file resolves to "Invoices" in the first (keyword-rule)
title stage with method tag "title_rule", with no download and no AI call
(the effect log stays empty and the counter stays 0). -/
theorem c7_amended :
    ai_sort_files envC7 [] subsC7 [fileC7] [] 2000 100 DEF_MAX_BYTES = Except.ok runC7val ∧
    runC7val.eff = ⟨[], []⟩ ∧ runC7val.ai_calls = 0 ∧
    runC7val.moved.map MovedEntry.method = ["title_rule"] := by decide

/-! ### C1: a file with empty extracted text is moved, not skipped -/

/-- C1 (code bug): a file that reaches the content stage with empty extracted
text (unsupported type) and one candidate folder present is **moved** to that
folder — `cat` stays `None`, the normalized category is the empty string, and
the empty string is a substring of every folder key, so the resolution loop
picks the first candidate — with method "content" and `category = None`,
instead of being recorded as skipped as the spec requires ("no content
signal"). -/
theorem c1_empty_text_moves_file :
    ai_sort_files envC1 [] [⟨"d1", "Misc"⟩] [⟨"f1", "data.bin", "application/octet-stream"⟩]
      [] 2000 100 DEF_MAX_BYTES = Except.ok runC1val ∧
    runC1val.moved ≠ [] ∧ runC1val.skipped = [] := by decide

/-! ### C8: extraction dispatch order -/

/-- C8 counterexample: a file whose MIME type identifies the image class but
whose lowercase name ends in ".pdf" is routed to the PDF extractor, not to the
image extractor — the extension is not merely a fallback behind the MIME
type. -/
theorem c8_counterexample :
    extract_text exC8 "scan.pdf" "image/png" [] = "PDFTEXT" ∧
    ("PDFTEXT" : String) ≠ "IMGTEXT" := by decide

/-- C8 (amended): `_extract_text` tests the supported classes in the fixed
order PDF, image, xlsx, plain text, selecting a class when **either** its MIME
type or its extension matches.  Consequently a matching PDF condition (either
the MIME or the `.pdf` extension) routes to the PDF extractor regardless of
the other signal, and the image extractor is reached exactly when the PDF
conditions both fail and an image signal (MIME prefix or extension) is
present. -/
theorem c8_amended :
    (∀ ex name mime data,
      (mime = "application/pdf" ∨ pyEndsWith (pyLowerStr name) ".pdf" = true) →
      extract_text ex name mime data =
        (match ex.pdfBytes data with | Except.ok s => s | Except.error _ => "")) ∧
    (∀ ex name mime data,
      ¬ (mime = "application/pdf" ∨ pyEndsWith (pyLowerStr name) ".pdf" = true) →
      (pyStartsWith mime "image/" = true ∨
        (imageExts.any (fun e => pyEndsWith (pyLowerStr name) e)) = true) →
      extract_text ex name mime data =
        (match ex.imageBytes data with | Except.ok s => s | Except.error _ => "")) := by
  constructor
  · intro ex name mime data h
    simp only [extract_text]
    rw [if_pos h]
  · intro ex name mime data h1 h2
    simp only [extract_text]
    rw [if_neg h1, if_pos h2]

theorem c8_witness :
    extract_text exC8 "scan.pdf" "image/png" [] =
      (match exC8.pdfBytes [] with | Except.ok s => s | Except.error _ => "") ∧
    extract_text exC8 "scan.xyz" "image/png" [] =
      (match exC8.imageBytes [] with | Except.ok s => s | Except.error _ => "") :=
  ⟨c8_amended.1 exC8 "scan.pdf" "image/png" [] (by decide),
   c8_amended.2 exC8 "scan.xyz" "image/png" [] (by decide) (by decide)⟩

/-! ### C10: the size ceiling -/

theorem skipped_ne_of_reason (fid fname r1 r2 : String) (h : r1 ≠ r2) :
    Outcome.skipped ⟨fid, fname, r1⟩ ≠ Outcome.skipped ⟨fid, fname, r2⟩ := by
  intro hx
  injection hx with h1
  injection h1 with _ _ h2
  exact h h2

theorem contentClassify_skip_reasons (env : Env) (fp : List Profile) (tm mf : Nat)
    (cache : PyDict String) (ai : Nat) (eff : Effects) (fid fname mime : String)
    (md5 : Option String) (cat0 : Option String) (cm0 : String)
    (r : String) (c : PyDict String) (a : Nat) (e : Effects)
    (h : contentClassify env fp tm mf cache ai eff fid fname mime md5 cat0 cm0 =
      ContentRes.skip r c a e) :
    r = "ai_limit_reached" ∨ (∃ s, r = "download_failed:" ++ s) ∨
      (∃ s, r = "ai_failed:" ++ s) := by
  simp only [contentClassify] at h
  split at h
  · exact ContentRes.noConfusion h
  · split at h
    · injection h with h1 h2 h3 h4
      exact Or.inl h1.symm
    · split at h
      · injection h with h1 h2 h3 h4
        exact Or.inr (Or.inl ⟨_, h1.symm⟩)
      · split at h
        · exact ContentRes.noConfusion h
        · split at h
          · exact ContentRes.noConfusion h
          · split at h
            · injection h with h1 h2 h3 h4
              exact Or.inr (Or.inr ⟨_, h1.symm⟩)
            · exact ContentRes.noConfusion h

theorem contentClassify_downloads (env : Env) (fp : List Profile) (tm mf : Nat)
    (cache : PyDict String) (ai : Nat) (eff : Effects) (fid fname mime : String)
    (md5 : Option String) (cat0 : Option String) (cm0 : String)
    (hcat : pyTruthy cat0 = false) (hai : ai < mf) :
    (contentClassify env fp tm mf cache ai eff fid fname mime md5 cat0 cm0).effOf.downloads =
      eff.downloads ++ [fid] := by
  simp only [contentClassify]
  rw [if_neg (by rw [hcat]; exact fun hx => Bool.noConfusion hx),
    if_neg (not_le.mpr hai)]
  split
  · rfl
  · split
    · rfl
    · split
      · rfl
      · split
        · split <;> rfl
        · split <;> rfl

theorem contentStage_eff (env : Env) (fp : List Profile) (sbn : PyDict Profile)
    (tm mf mb : Nat) (cache : PyDict String) (ai : Nat) (eff : Effects)
    (fid fname mime : String) (meta : FileMeta) (so : StepOut)
    (hm : env.getMeta fid = Except.ok meta)
    (hsz : ¬ (meta.sizeField.getD 0 ≠ 0 ∧ mb < meta.sizeField.getD 0))
    (hso : contentStage env fp sbn tm mf mb cache ai eff fid fname mime = Except.ok so) :
    so.eff = (contentClassify env fp tm mf cache ai eff fid fname mime meta.md5
      (cacheLookup meta.md5 cache)
      (if pyTruthy (cacheLookup meta.md5 cache) = true then "cache" else "")).effOf := by
  simp only [contentStage, hm] at hso
  rw [if_neg hsz] at hso
  split at hso
  · rename_i reason cache1 ai1 eff1 heq
    injection hso with h2
    rw [← h2, heq]
    rfl
  · rename_i cat cm cache1 ai1 eff1 heq
    split at hso
    · injection hso with h2
      rw [← h2, heq]
      rfl
    · split at hso
      · injection hso with h2
        rw [← h2, heq]
        rfl
      · split at hso
        · injection hso with h2
          rw [← h2, heq]
          rfl
        · injection hso with h2
          rw [← h2, heq]
          rfl

/-- C10: the size ceiling reads the reported metadata size only.  (i) When the
metadata lacks a size field or reports size 0, the ceiling is bypassed: on a
cache miss with AI budget available the file is downloaded — whatever the
actual byte size of its content.  (ii) A skip `too_large:<size>` is produced,
with the state unchanged, exactly when the reported size is non-zero and
strictly exceeds `max_bytes`; (iii) otherwise no outcome of the content stage
is a `too_large` skip. -/
theorem c10_size_gate :
    (∀ env fp sbn tm mf mb cache ai eff (fid fname mime : String) meta,
      env.getMeta fid = Except.ok meta →
      meta.sizeField.getD 0 = 0 →
      pyTruthy (cacheLookup meta.md5 cache) = false →
      ai < mf →
      ∀ so, contentStage env fp sbn tm mf mb cache ai eff fid fname mime = Except.ok so →
        so.eff.downloads = eff.downloads ++ [fid]) ∧
    (∀ env fp sbn tm mf mb cache ai eff (fid fname mime : String) meta,
      env.getMeta fid = Except.ok meta →
      meta.sizeField.getD 0 ≠ 0 → mb < meta.sizeField.getD 0 →
      contentStage env fp sbn tm mf mb cache ai eff fid fname mime =
        Except.ok ⟨Outcome.skipped
          ⟨fid, fname, "too_large:" ++ toString (meta.sizeField.getD 0)⟩, cache, ai, eff⟩) ∧
    (∀ env fp sbn tm mf mb cache ai eff (fid fname mime : String) meta,
      env.getMeta fid = Except.ok meta →
      ¬ (meta.sizeField.getD 0 ≠ 0 ∧ mb < meta.sizeField.getD 0) →
      ∀ so, contentStage env fp sbn tm mf mb cache ai eff fid fname mime = Except.ok so →
      ∀ n : Nat, so.outcome ≠ Outcome.skipped ⟨fid, fname, "too_large:" ++ toString n⟩) := by
  refine ⟨?_, ?_, ?_⟩
  · intro env fp sbn tm mf mb cache ai eff fid fname mime meta hm hsize hcat hai so hso
    have hsz : ¬ (meta.sizeField.getD 0 ≠ 0 ∧ mb < meta.sizeField.getD 0) := by
      rw [hsize]
      intro hx
      exact hx.1 rfl
    rw [contentStage_eff env fp sbn tm mf mb cache ai eff fid fname mime meta so hm hsz hso]
    exact contentClassify_downloads env fp tm mf cache ai eff fid fname mime meta.md5
      (cacheLookup meta.md5 cache)
      (if pyTruthy (cacheLookup meta.md5 cache) = true then "cache" else "") hcat hai
  · intro env fp sbn tm mf mb cache ai eff fid fname mime meta hm hne hlt
    simp only [contentStage, hm]
    rw [if_pos ⟨hne, hlt⟩]
  · intro env fp sbn tm mf mb cache ai eff fid fname mime meta hm hsz so hso n
    simp only [contentStage, hm] at hso
    rw [if_neg hsz] at hso
    split at hso
    · rename_i reason cache1 ai1 eff1 heq
      injection hso with h2
      rw [← h2]
      rcases contentClassify_skip_reasons env fp tm mf cache ai eff fid fname mime
          meta.md5 (cacheLookup meta.md5 cache)
          (if pyTruthy (cacheLookup meta.md5 cache) = true then "cache" else "")
          reason cache1 ai1 eff1 heq with h3 | ⟨s, h3⟩ | ⟨s, h3⟩
      · rw [h3]
        exact skipped_ne_of_reason _ _ _ _ (str_ne_of_head _ _ _ (by decide) (by decide))
      · rw [h3]
        exact skipped_ne_of_reason _ _ _ _
          (strapp_ne_of_head _ _ _ _ (by decide) (by decide) (by decide))
      · rw [h3]
        exact skipped_ne_of_reason _ _ _ _
          (strapp_ne_of_head _ _ _ _ (by decide) (by decide) (by decide))
    · rename_i cat cm cache1 ai1 eff1 heq
      split at hso
      · injection hso with h2
        rw [← h2]
        exact skipped_ne_of_reason _ _ _ _ (str_ne_of_head _ _ _ (by decide) (by decide))
      · split at hso
        · injection hso with h2
          rw [← h2]
          exact skipped_ne_of_reason _ _ _ _
            (strapp_ne_of_head _ _ _ _ (by decide) (by decide) (by decide))
        · split at hso
          · injection hso with h2
            rw [← h2]
            intro hx
            exact Outcome.noConfusion hx
          · injection hso with h2
            rw [← h2]
            exact skipped_ne_of_reason _ _ _ _
              (strapp_ne_of_head _ _ _ _ (by decide) (by decide) (by decide))

/-! ### Forward descriptions of the pipeline stages (used by C3 and C6) -/

/-- A title-stage resolution only results in a move or a move-failure skip;
the cache and counter are untouched. -/
theorem processFile_titleResolved (env : Env) (fp : List Profile)
    (sbn sbl : PyDict Profile) (tm mf mb : Nat) (cache : PyDict String) (ai : Nat)
    (eff : Effects) (f : FileInfo) (pm : Profile × String) (so : StepOut)
    (htitle : titleResolve env fp sbn sbl f.name = some pm)
    (hso : processFile env fp sbn sbl tm mf mb cache ai eff f = Except.ok so) :
    so.cache = cache ∧ so.aiCalls = ai ∧ so.eff = eff := by
  simp only [processFile, htitle] at hso
  split at hso
  · injection hso with h2
    rw [← h2]
    exact ⟨rfl, rfl, rfl⟩
  · injection hso with h2
    rw [← h2]
    exact ⟨rfl, rfl, rfl⟩

/-- A successful title-AI resolution (label maps to a folder) moves the file
or records a move failure; the cache is untouched either way. -/
theorem processFile_titleAI_cache (env : Env) (fp : List Profile)
    (sbn sbl : PyDict Profile) (tm mf mb : Nat) (cache : PyDict String) (ai : Nat)
    (eff : Effects) (f : FileInfo) (g : String) (d : Profile) (so : StepOut)
    (htitle : titleResolve env fp sbn sbl f.name = none)
    (hfp : fp ≠ []) (hai : ai < mf)
    (hg : classify_title_with_ai env f.name fp = Except.ok g)
    (hcond : g ≠ "" ∧ pyUpper g ≠ "NONE")
    (hdest : resolveGuess sbn (norm g) = some d)
    (hso : processFile env fp sbn sbl tm mf mb cache ai eff f = Except.ok so) :
    so.cache = cache := by
  simp only [processFile, htitle] at hso
  rw [if_neg (by
    cases fp with
    | nil => exact absurd rfl hfp
    | cons a l => intro hx; exact Bool.noConfusion hx)] at hso
  rw [if_neg (not_le.mpr hai)] at hso
  simp only [hg] at hso
  rw [if_pos hcond] at hso
  simp only [hdest] at hso
  split at hso
  · injection hso with h2
    rw [← h2]
  · injection hso with h2
    rw [← h2]

/-- When no title stage resolves and the title-AI answer does not map to a
folder (empty, "NONE", or unmapped), the pipeline falls through to the content
stage with the counter incremented and the attempt logged. -/
theorem processFile_toContent (env : Env) (fp : List Profile)
    (sbn sbl : PyDict Profile) (tm mf mb : Nat) (cache : PyDict String) (ai : Nat)
    (eff : Effects) (f : FileInfo) (g : String)
    (htitle : titleResolve env fp sbn sbl f.name = none)
    (hfp : fp ≠ []) (hai : ai < mf)
    (hg : classify_title_with_ai env f.name fp = Except.ok g)
    (hfall : g = "" ∨ pyUpper g = "NONE" ∨ resolveGuess sbn (norm g) = none) :
    processFile env fp sbn sbl tm mf mb cache ai eff f =
      contentStage env fp sbn tm mf mb cache (ai + 1)
        ⟨eff.aiAttempts ++ [f.id], eff.downloads⟩ f.id f.name f.mimeType := by
  simp only [processFile, htitle]
  rw [if_neg (by
    cases fp with
    | nil => exact absurd rfl hfp
    | cons a l => intro hx; exact Bool.noConfusion hx)]
  rw [if_neg (not_le.mpr hai)]
  simp only [hg]
  by_cases hcond : g ≠ "" ∧ pyUpper g ≠ "NONE"
  · rw [if_pos hcond]
    rcases hfall with h | h | h
    · exact absurd h hcond.1
    · exact absurd h hcond.2
    · simp only [h]
  · rw [if_neg hcond]

/-- A cache hit ends the classification block immediately: nothing is
downloaded, no AI is called, nothing is written, and the method tag is the
pre-computed `cat_method`. -/
theorem contentClassify_hit (env : Env) (fp : List Profile) (tm mf : Nat)
    (cache : PyDict String) (ai : Nat) (eff : Effects) (fid fname mime : String)
    (md5 : Option String) (cat0 : Option String) (cm0 : String)
    (hhit : pyTruthy cat0 = true) :
    contentClassify env fp tm mf cache ai eff fid fname mime md5 cat0 cm0 =
      ContentRes.done cat0 cm0 cache ai eff := by
  simp only [contentClassify]
  rw [if_pos hhit]

/-- The write helper at lines 368-369 inserts when the hash and the label are
non-empty and the label is not "NONE". -/
theorem cacheWrite_pos (m c : String) (cache : PyDict String)
    (hm : m ≠ "") (hc : c ≠ "") (hn : pyUpper c ≠ "NONE") :
    cacheWrite (some m) (some c) cache = dinsert cache m c := by
  simp only [cacheWrite]
  rw [if_pos ⟨hm, hc, hn⟩]

/-- The content_rule branch: cache miss, budget available, download succeeds,
extracted text non-empty and matched by the keyword rules. -/
theorem contentClassify_contentRule (env : Env) (fp : List Profile) (tm mf : Nat)
    (cache : PyDict String) (ai : Nat) (eff : Effects) (fid fname mime : String)
    (md5 : Option String) (cat0 : Option String) (cm0 : String)
    (data : List Nat) (tp : Profile)
    (hmiss : pyTruthy cat0 = false) (hai : ai < mf)
    (hdl : env.download fid = Except.ok data)
    (htext : strTake (extract_text env.ex fname mime data) tm ≠ "")
    (hrule : best_profile_by_rules (strTake (extract_text env.ex fname mime data) tm) fp =
      some tp) :
    contentClassify env fp tm mf cache ai eff fid fname mime md5 cat0 cm0 =
      ContentRes.done (some tp.name) "content_rule" (cacheWrite md5 (some tp.name) cache)
        ai ⟨eff.aiAttempts, eff.downloads ++ [fid]⟩ := by
  simp only [contentClassify]
  rw [if_neg (by rw [hmiss]; exact fun hx => Bool.noConfusion hx),
    if_neg (not_le.mpr hai), hdl]
  simp only [hrule, if_neg htext]

/-- The content_ai branch: cache miss, budget available, download succeeds,
extracted text non-empty, keyword rules do not match, the remote content
classifier answers. -/
theorem contentClassify_contentAI (env : Env) (fp : List Profile) (tm mf : Nat)
    (cache : PyDict String) (ai : Nat) (eff : Effects) (fid fname mime : String)
    (md5 : Option String) (cat0 : Option String) (cm0 : String)
    (data : List Nat) (craw : String)
    (hmiss : pyTruthy cat0 = false) (hai : ai < mf)
    (hdl : env.download fid = Except.ok data)
    (htext : strTake (extract_text env.ex fname mime data) tm ≠ "")
    (hrule : best_profile_by_rules (strTake (extract_text env.ex fname mime data) tm) fp =
      none)
    (hfp : fp ≠ [])
    (hca : env.contentAIRaw fname (strTake (extract_text env.ex fname mime data) tm) fp =
      Except.ok craw) :
    contentClassify env fp tm mf cache ai eff fid fname mime md5 cat0 cm0 =
      ContentRes.done (some (pyStrip craw)) "content_ai"
        (cacheWrite md5 (some (pyStrip craw)) cache) (ai + 1)
        ⟨eff.aiAttempts ++ [fid], eff.downloads ++ [fid]⟩ := by
  have hempty : fp.isEmpty = false := by
    cases fp with
    | nil => exact absurd rfl hfp
    | cons a l => rfl
  simp only [contentClassify]
  rw [if_neg (by rw [hmiss]; exact fun hx => Bool.noConfusion hx),
    if_neg (not_le.mpr hai), hdl]
  simp only [hrule, if_neg htext, classify_with_ai, hempty, hca]
  rfl

/-- Resolution of a non-"NONE" classification whose label maps to a folder:
the file is moved with the branch's method tag and the classification state is
passed through. -/
theorem contentStage_done_moved (env : Env) (fp : List Profile) (sbn : PyDict Profile)
    (tm mf mb : Nat) (cache : PyDict String) (ai : Nat) (eff : Effects)
    (fid fname mime : String) (meta : FileMeta) (cat cm : String)
    (cache1 : PyDict String) (ai1 : Nat) (eff1 : Effects) (d : Profile) (res : MoveResult)
    (hm : env.getMeta fid = Except.ok meta)
    (hsz : ¬ (meta.sizeField.getD 0 ≠ 0 ∧ mb < meta.sizeField.getD 0))
    (hCC : contentClassify env fp tm mf cache ai eff fid fname mime meta.md5
      (cacheLookup meta.md5 cache)
      (if pyTruthy (cacheLookup meta.md5 cache) = true then "cache" else "") =
      ContentRes.done (some cat) cm cache1 ai1 eff1)
    (hcat : cat ≠ "") (hnone : pyUpper cat ≠ "NONE")
    (hdest : resolveGuess sbn (norm cat) = some d)
    (hmv : env.move fid d.id = Except.ok res) :
    contentStage env fp sbn tm mf mb cache ai eff fid fname mime =
      Except.ok ⟨Outcome.moved
        ⟨res.id.getD fid, res.name.getD fname, d.name, some cat,
          (if cm ≠ "" then cm else "content"),
          (if cm = "content_ai" ∨ cm = "cache" then some cat else none)⟩,
        cache1, ai1, eff1⟩ := by
  have hpy : pyOr (some cat) "" = cat := by
    simp only [pyOr]
    rw [if_pos hcat]
  simp only [contentStage, hm]
  rw [if_neg hsz]
  simp only [hCC, hpy]
  rw [if_neg (fun hx => hnone hx.2), hdest]
  simp only [hmv]

/-- Resolution of a non-"NONE" classification whose label maps to no folder:
a terminal `no_match` skip, with the classification state — including any
cache write — passed through. -/
theorem contentStage_done_nomatch (env : Env) (fp : List Profile) (sbn : PyDict Profile)
    (tm mf mb : Nat) (cache : PyDict String) (ai : Nat) (eff : Effects)
    (fid fname mime : String) (meta : FileMeta) (cat cm : String)
    (cache1 : PyDict String) (ai1 : Nat) (eff1 : Effects)
    (hm : env.getMeta fid = Except.ok meta)
    (hsz : ¬ (meta.sizeField.getD 0 ≠ 0 ∧ mb < meta.sizeField.getD 0))
    (hCC : contentClassify env fp tm mf cache ai eff fid fname mime meta.md5
      (cacheLookup meta.md5 cache)
      (if pyTruthy (cacheLookup meta.md5 cache) = true then "cache" else "") =
      ContentRes.done (some cat) cm cache1 ai1 eff1)
    (hcat : cat ≠ "") (hnone : pyUpper cat ≠ "NONE")
    (hdest : resolveGuess sbn (norm cat) = none) :
    contentStage env fp sbn tm mf mb cache ai eff fid fname mime =
      Except.ok ⟨Outcome.skipped ⟨fid, fname, "no_match:" ++ cat⟩, cache1, ai1, eff1⟩ := by
  have hpy : pyOr (some cat) "" = cat := by
    simp only [pyOr]
    rw [if_pos hcat]
  simp only [contentStage, hm]
  rw [if_neg hsz]
  simp only [hCC, hpy]
  rw [if_neg (fun hx => hnone hx.2), hdest]
  rfl

theorem c10_witness :
    ((⟨Outcome.skipped ⟨"f1", "n", "no_match:None"⟩, [], 0, ⟨[], ["f1"]⟩⟩ : StepOut).eff.downloads =
      (⟨[], []⟩ : Effects).downloads ++ ["f1"]) ∧
    (contentStage envC10big [] [] 2000 5 999 [] 0 ⟨[], []⟩ "f1" "n" "m" =
      Except.ok ⟨Outcome.skipped ⟨"f1", "n", "too_large:1000"⟩, [], 0, ⟨[], []⟩⟩) ∧
    ((⟨Outcome.skipped ⟨"f1", "n", "no_match:None"⟩, [], 0, ⟨[], ["f1"]⟩⟩ : StepOut).outcome ≠
      Outcome.skipped ⟨"f1", "n", "too_large:" ++ toString 7⟩) :=
  ⟨c10_size_gate.1 envC10 [] [] 2000 5 2 [] 0 ⟨[], []⟩ "f1" "n" "m" ⟨none, some "h"⟩
     rfl rfl (by decide) (by decide) _ (by decide),
   c10_size_gate.2.1 envC10big [] [] 2000 5 999 [] 0 ⟨[], []⟩ "f1" "n" "m" ⟨some 1000, some "h"⟩
     rfl (by decide) (by decide),
   c10_size_gate.2.2 envC10 [] [] 2000 5 2 [] 0 ⟨[], []⟩ "f1" "n" "m" ⟨none, some "h"⟩
     rfl (by decide) _ (by decide) 7⟩

/-! ### C3: the cache lifecycle -/

/-- A skipped classification block leaves the cache unchanged. -/
theorem contentClassify_skip_cache (env : Env) (fp : List Profile) (tm mf : Nat)
    (cache : PyDict String) (ai : Nat) (eff : Effects) (fid fname mime : String)
    (md5 : Option String) (cat0 : Option String) (cm0 : String)
    (r : String) (c : PyDict String) (a : Nat) (e : Effects)
    (h : contentClassify env fp tm mf cache ai eff fid fname mime md5 cat0 cm0 =
      ContentRes.skip r c a e) : c = cache := by
  simp only [contentClassify] at h
  split at h
  · exact ContentRes.noConfusion h
  · split at h
    · injection h with _ h2 _ _
      exact h2.symm
    · split at h
      · injection h with _ h2 _ _
        exact h2.symm
      · split at h
        · exact ContentRes.noConfusion h
        · split at h
          · exact ContentRes.noConfusion h
          · split at h
            · injection h with _ h2 _ _
              exact h2.symm
            · exact ContentRes.noConfusion h

/-- The classification block writes the cache exactly in its content branches
(`content_rule` / `content_ai`), through the guarded `cacheWrite`; on a cache
hit or empty text it passes `cat`/`cat_method` through untouched. -/
theorem contentClassify_done_cache (env : Env) (fp : List Profile) (tm mf : Nat)
    (cache : PyDict String) (ai : Nat) (eff : Effects) (fid fname mime : String)
    (md5 : Option String) (cat0 : Option String) (cm0 : String)
    (cat : Option String) (cm : String) (c : PyDict String) (a : Nat) (e : Effects)
    (h : contentClassify env fp tm mf cache ai eff fid fname mime md5 cat0 cm0 =
      ContentRes.done cat cm c a e) :
    ((cm = "content_rule" ∨ cm = "content_ai") ∧ c = cacheWrite md5 cat cache) ∨
    (c = cache ∧ cat = cat0 ∧ cm = cm0) := by
  simp only [contentClassify] at h
  split at h
  · injection h with h1 h2 h3 _ _
    exact Or.inr ⟨h3.symm, h1.symm, h2.symm⟩
  · split at h
    · exact ContentRes.noConfusion h
    · split at h
      · exact ContentRes.noConfusion h
      · split at h
        · injection h with h1 h2 h3 _ _
          exact Or.inr ⟨h3.symm, h1.symm, h2.symm⟩
        · split at h
          · injection h with h1 h2 h3 _ _
            refine Or.inl ⟨Or.inl h2.symm, ?_⟩
            rw [← h3, h1]
          · split at h
            · exact ContentRes.noConfusion h
            · injection h with h1 h2 h3 _ _
              refine Or.inl ⟨Or.inr h2.symm, ?_⟩
              rw [← h3, h1]

/-- C3 counterexample: one folder "Invoices"; the content AI labels the file
"Whatever", which maps to no folder.  The run ends in a terminal skip
`no_match:Whatever` — but the label **has been written to the cache** (the
write at lines 368-369 precedes label-to-folder resolution), refuting the
claim that an unmapped content-AI label produces a terminal skip without a
cache write. -/
theorem c3_counterexample :
    ai_sort_files envC3 [] [⟨"d1", "Invoices"⟩] [⟨"f1", "doc.txt", "text/plain"⟩]
      [] 2000 100 99 = Except.ok runC3val ∧
    runC3val.skipped = [⟨"f1", "doc.txt", "no_match:Whatever"⟩] ∧
    dget runC3val.cache "h1" = some "Whatever" :=
  ⟨by decide, by decide, by decide⟩

/-- C3 (amended): the cache lifecycle of `ai_sort_files`.
(1) A file resolved by a free title stage never touches the cache.
(2) A file resolved by the title-AI stage never touches the cache.
(3) A skip inside the classification block never writes the cache.
(4) The block's fall-through writes exactly in the `content_rule` /
`content_ai` branches, through the guarded write (non-empty hash, truthy
non-"NONE" label) — independently of whether the label later resolves to a
folder; otherwise it passes state through unchanged.
(5) In particular a content-AI label that maps to no candidate folder yields
the terminal skip `no_match:<label>` with the cache entry nevertheless
written.
(6) A cache hit ends the block at once — nothing downloaded, no AI call,
nothing written — with method tag `cat_method` as pre-computed ("cache"). -/
theorem c3_amended :
    (∀ env fp sbn sbl tm mf mb cache ai eff (f : FileInfo) pm so,
      titleResolve env fp sbn sbl f.name = some pm →
      processFile env fp sbn sbl tm mf mb cache ai eff f = Except.ok so →
      so.cache = cache) ∧
    (∀ env fp sbn sbl tm mf mb cache ai eff (f : FileInfo) g d so,
      titleResolve env fp sbn sbl f.name = none → fp ≠ [] → ai < mf →
      classify_title_with_ai env f.name fp = Except.ok g →
      (g ≠ "" ∧ pyUpper g ≠ "NONE") →
      resolveGuess sbn (norm g) = some d →
      processFile env fp sbn sbl tm mf mb cache ai eff f = Except.ok so →
      so.cache = cache) ∧
    (∀ env fp tm mf cache ai eff (fid fname mime : String) md5 cat0 cm0 r c a e,
      contentClassify env fp tm mf cache ai eff fid fname mime md5 cat0 cm0 =
        ContentRes.skip r c a e → c = cache) ∧
    (∀ env fp tm mf cache ai eff (fid fname mime : String) md5 cat0 cm0 cat cm c a e,
      contentClassify env fp tm mf cache ai eff fid fname mime md5 cat0 cm0 =
        ContentRes.done cat cm c a e →
      ((cm = "content_rule" ∨ cm = "content_ai") ∧ c = cacheWrite md5 cat cache) ∨
      (c = cache ∧ cat = cat0 ∧ cm = cm0)) ∧
    (∀ env fp sbn tm mf mb cache ai eff (fid fname mime : String) meta m data craw,
      env.getMeta fid = Except.ok meta → meta.md5 = some m → m ≠ "" →
      ¬ (meta.sizeField.getD 0 ≠ 0 ∧ mb < meta.sizeField.getD 0) →
      dget cache m = none → ai < mf →
      env.download fid = Except.ok data →
      strTake (extract_text env.ex fname mime data) tm ≠ "" →
      best_profile_by_rules (strTake (extract_text env.ex fname mime data) tm) fp = none →
      fp ≠ [] →
      env.contentAIRaw fname (strTake (extract_text env.ex fname mime data) tm) fp =
        Except.ok craw →
      pyStrip craw ≠ "" → pyUpper (pyStrip craw) ≠ "NONE" →
      resolveGuess sbn (norm (pyStrip craw)) = none →
      contentStage env fp sbn tm mf mb cache ai eff fid fname mime =
        Except.ok ⟨Outcome.skipped ⟨fid, fname, "no_match:" ++ pyStrip craw⟩,
          dinsert cache m (pyStrip craw), ai + 1,
          ⟨eff.aiAttempts ++ [fid], eff.downloads ++ [fid]⟩⟩) ∧
    (∀ env fp tm mf cache ai eff (fid fname mime : String) md5 cat0 cm0,
      pyTruthy cat0 = true →
      contentClassify env fp tm mf cache ai eff fid fname mime md5 cat0 cm0 =
        ContentRes.done cat0 cm0 cache ai eff) := by
  refine ⟨?_, ?_, ?_, ?_, ?_, ?_⟩
  · intro env fp sbn sbl tm mf mb cache ai eff f pm so htitle hso
    exact (processFile_titleResolved env fp sbn sbl tm mf mb cache ai eff f pm so
      htitle hso).1
  · intro env fp sbn sbl tm mf mb cache ai eff f g d so htitle hfp hai hg hcond hdest hso
    exact processFile_titleAI_cache env fp sbn sbl tm mf mb cache ai eff f g d so
      htitle hfp hai hg hcond hdest hso
  · intro env fp tm mf cache ai eff fid fname mime md5 cat0 cm0 r c a e h
    exact contentClassify_skip_cache env fp tm mf cache ai eff fid fname mime
      md5 cat0 cm0 r c a e h
  · intro env fp tm mf cache ai eff fid fname mime md5 cat0 cm0 cat cm c a e h
    exact contentClassify_done_cache env fp tm mf cache ai eff fid fname mime
      md5 cat0 cm0 cat cm c a e h
  · intro env fp sbn tm mf mb cache ai eff fid fname mime meta m data craw
      hm hmd hm0 hsz hmiss hai hdl htext hrule hfp hca hcat hnone hdest
    have hmiss' : pyTruthy (cacheLookup meta.md5 cache) = false := by
      rw [hmd]
      simp only [cacheLookup]
      rw [if_pos hm0, hmiss]
      rfl
    have hCC := contentClassify_contentAI env fp tm mf cache ai eff fid fname mime
      meta.md5 (cacheLookup meta.md5 cache)
      (if pyTruthy (cacheLookup meta.md5 cache) = true then "cache" else "")
      data craw hmiss' hai hdl htext hrule hfp hca
    have hw : cacheWrite meta.md5 (some (pyStrip craw)) cache =
        dinsert cache m (pyStrip craw) := by
      rw [hmd]
      exact cacheWrite_pos m (pyStrip craw) cache hm0 hcat hnone
    rw [hw] at hCC
    exact contentStage_done_nomatch env fp sbn tm mf mb cache ai eff fid fname mime
      meta (pyStrip craw) "content_ai" (dinsert cache m (pyStrip craw)) (ai + 1)
      ⟨eff.aiAttempts ++ [fid], eff.downloads ++ [fid]⟩ hm hsz hCC hcat hnone hdest
  · intro env fp tm mf cache ai eff fid fname mime md5 cat0 cm0 hhit
    exact contentClassify_hit env fp tm mf cache ai eff fid fname mime md5 cat0 cm0 hhit

theorem c3_witness :
    ((⟨Outcome.moved ⟨"f1", "2024_Invoices_Acme.pdf", "Invoices", some "Invoices",
        "title_rule", none⟩, [], 0, ⟨[], []⟩⟩ : StepOut).cache = ([] : PyDict String)) ∧
    ((⟨Outcome.moved ⟨"f1", "zzz", "Invoices", some "Invoices", "title_ai",
        some "Invoices"⟩, [], 1, ⟨["f1"], []⟩⟩ : StepOut).cache = ([] : PyDict String)) ∧
    (([] : PyDict String) = ([] : PyDict String)) ∧
    (((("cache" : String) = "content_rule" ∨ ("cache" : String) = "content_ai") ∧
        ([("h", "X")] : PyDict String) = cacheWrite (some "h") (some "X") [("h", "X")]) ∨
      (([("h", "X")] : PyDict String) = [("h", "X")] ∧
        (some "X" : Option String) = some "X" ∧ ("cache" : String) = "cache")) ∧
    (contentStage envC3 (buildIndex [] [⟨"d1", "Invoices"⟩]).1
        (buildIndex [] [⟨"d1", "Invoices"⟩]).2.1 2000 100 99 [] 1 ⟨["f1"], []⟩
        "f1" "doc.txt" "text/plain" =
      Except.ok ⟨Outcome.skipped ⟨"f1", "doc.txt", "no_match:Whatever"⟩,
        dinsert [] "h1" "Whatever", 2, ⟨["f1", "f1"], ["f1"]⟩⟩) ∧
    (contentClassify envTA [] 2000 100 [("h", "X")] 0 ⟨[], []⟩ "f1" "n" "m"
        (some "h") (some "X") "cache" =
      ContentRes.done (some "X") "cache" [("h", "X")] 0 ⟨[], []⟩) :=
  ⟨c3_amended.1 envC7 (buildIndex [] subsC7).1 (buildIndex [] subsC7).2.1
     (buildIndex [] subsC7).2.2 2000 100 DEF_MAX_BYTES [] 0 ⟨[], []⟩ fileC7
     (⟨"dInv", "Invoices", "", [], []⟩, "title_rule") _ (by decide) (by decide),
   c3_amended.2.1 envTA (buildIndex [] subsC7).1 (buildIndex [] subsC7).2.1
     (buildIndex [] subsC7).2.2 2000 100 DEF_MAX_BYTES [] 0 ⟨[], []⟩ ⟨"f1", "zzz", "m"⟩
     "Invoices" ⟨"dInv", "Invoices", "", [], []⟩ _ (by decide) (by decide) (by decide)
     (by decide) (by decide) (by decide) (by decide),
   c3_amended.2.2.1 envC2ok [] 2000 100 [] 0 ⟨[], []⟩ "f1" "n" "m" (some "h") none ""
     "download_failed:dl" [] 0 ⟨[], ["f1"]⟩ (by decide),
   c3_amended.2.2.2.1 envTA [] 2000 100 [("h", "X")] 0 ⟨[], []⟩ "f1" "n" "m"
     (some "h") (some "X") "cache" (some "X") "cache" [("h", "X")] 0 ⟨[], []⟩ (by decide),
   c3_amended.2.2.2.2.1 envC3 (buildIndex [] [⟨"d1", "Invoices"⟩]).1
     (buildIndex [] [⟨"d1", "Invoices"⟩]).2.1 2000 100 99 [] 1 ⟨["f1"], []⟩
     "f1" "doc.txt" "text/plain" ⟨some 5, some "h1"⟩ "h1" [1] "Whatever"
     (by decide) (by decide) (by decide) (by decide) (by decide) (by decide)
     (by decide) (by decide) (by decide) (by decide) (by decide) (by decide)
     (by decide) (by decide),
   c3_amended.2.2.2.2.2 envTA [] 2000 100 [("h", "X")] 0 ⟨[], []⟩ "f1" "n" "m"
     (some "h") (some "X") "cache" (by decide)⟩

/-! ### C6: cache reuse between two files with the same content hash -/

/-- C6 counterexample: two same-hash files in one run, the first classified by
`content_rule`, the second resolved via the cache with the same category — yet
the second file still triggers an AI call (its title-AI attempt precedes the
cache lookup), so "only the first file triggers download/extraction/AI" is
false: the remote-AI attempt log of the run is ["f1", "f2"]. -/
theorem c6_counterexample :
    ai_sort_files envC6 pbnC6 [⟨"d1", "Alpha"⟩]
      [⟨"f1", "a1.txt", "text/plain"⟩, ⟨"f2", "b2.txt", "text/plain"⟩]
      [] 2000 100 99 = Except.ok runC6val ∧
    "f2" ∈ runC6val.eff.aiAttempts ∧ ("f2" : String) ≠ "f1" :=
  ⟨by decide, by decide, by decide⟩

/-- C6 (amended): in a run over two files with the same (non-empty) content
hash where no title stage resolves, the title AI falls through for both, the
first file's text is classified by a content stage (`content_rule` or
`content_ai`) to label `cat` resolving to folder `d`, and both moves succeed:
the first file is moved with its content method tag; only the first file is
downloaded (the download log is exactly `[f1.id]`) and the second file incurs
no extraction and no content-AI call — only its title-AI attempt; the second
file resolves via the in-run cache entry with method tag "cache" and is
assigned the same category `cat` as the first. -/
theorem c6_amended (env : Env) (pbn : PyDict BaseProfile) (subs : List Subfolder)
    (fp : List Profile) (sbn sbl : PyDict Profile)
    (f1 f2 : FileInfo) (cache0 : PyDict String) (tm mf mb : Nat)
    (meta1 meta2 : FileMeta) (m : String) (g1 g2 : String)
    (data : List Nat) (cat : String) (d : Profile) (res1 res2 : MoveResult)
    (hidx : buildIndex pbn subs = (fp, sbn, sbl))
    (hfp : fp ≠ []) (hmf : 2 < mf)
    (h1t : titleResolve env fp sbn sbl f1.name = none)
    (h2t : titleResolve env fp sbn sbl f2.name = none)
    (hg1 : classify_title_with_ai env f1.name fp = Except.ok g1)
    (hfall1 : g1 = "" ∨ pyUpper g1 = "NONE" ∨ resolveGuess sbn (norm g1) = none)
    (hg2 : classify_title_with_ai env f2.name fp = Except.ok g2)
    (hfall2 : g2 = "" ∨ pyUpper g2 = "NONE" ∨ resolveGuess sbn (norm g2) = none)
    (hm1 : env.getMeta f1.id = Except.ok meta1)
    (hmd1 : meta1.md5 = some m) (hm0 : m ≠ "")
    (hsz1 : ¬ (meta1.sizeField.getD 0 ≠ 0 ∧ mb < meta1.sizeField.getD 0))
    (hmiss : dget cache0 m = none)
    (hdl : env.download f1.id = Except.ok data)
    (htext : strTake (extract_text env.ex f1.name f1.mimeType data) tm ≠ "")
    (hclass : (∃ tp, best_profile_by_rules
        (strTake (extract_text env.ex f1.name f1.mimeType data) tm) fp = some tp ∧
        cat = tp.name) ∨
      (∃ craw, best_profile_by_rules
        (strTake (extract_text env.ex f1.name f1.mimeType data) tm) fp = none ∧
        env.contentAIRaw f1.name (strTake (extract_text env.ex f1.name f1.mimeType data) tm)
          fp = Except.ok craw ∧ cat = pyStrip craw))
    (hcat : cat ≠ "") (hnone : pyUpper cat ≠ "NONE")
    (hdest : resolveGuess sbn (norm cat) = some d)
    (hmv1 : env.move f1.id d.id = Except.ok res1)
    (hm2 : env.getMeta f2.id = Except.ok meta2)
    (hmd2 : meta2.md5 = some m)
    (hsz2 : ¬ (meta2.sizeField.getD 0 ≠ 0 ∧ mb < meta2.sizeField.getD 0))
    (hmv2 : env.move f2.id d.id = Except.ok res2) :
    ai_sort_files env pbn subs [f1, f2] cache0 tm mf mb =
      Except.ok ⟨[⟨res1.id.getD f1.id, res1.name.getD f1.name, d.name, some cat,
          "content_rule", none⟩,
        ⟨res2.id.getD f2.id, res2.name.getD f2.name, d.name, some cat, "cache", some cat⟩],
        [], dinsert cache0 m cat, 2, ⟨[f1.id, f2.id], [f1.id]⟩⟩ ∨
    ai_sort_files env pbn subs [f1, f2] cache0 tm mf mb =
      Except.ok ⟨[⟨res1.id.getD f1.id, res1.name.getD f1.name, d.name, some cat,
          "content_ai", some cat⟩,
        ⟨res2.id.getD f2.id, res2.name.getD f2.name, d.name, some cat, "cache", some cat⟩],
        [], dinsert cache0 m cat, 3, ⟨[f1.id, f1.id, f2.id], [f1.id]⟩⟩ := by
  have hai0 : (0 : Nat) < mf := lt_trans (by decide) hmf
  have hai1 : (1 : Nat) < mf := lt_trans (by decide) hmf
  have hmiss1 : pyTruthy (cacheLookup meta1.md5 cache0) = false := by
    rw [hmd1]
    simp only [cacheLookup]
    rw [if_pos hm0, hmiss]
    rfl
  have hlook2 : cacheLookup meta2.md5 (dinsert cache0 m cat) = some cat := by
    rw [hmd2]
    simp only [cacheLookup]
    rw [if_pos hm0, dget_dinsert_self]
  have hhit2 : pyTruthy (cacheLookup meta2.md5 (dinsert cache0 m cat)) = true := by
    rw [hlook2]
    exact decide_eq_true hcat
  have hrun : ai_sort_files env pbn subs [f1, f2] cache0 tm mf mb =
      runStep env fp sbn sbl tm mf mb (runStep env fp sbn sbl tm mf mb
        (Except.ok ⟨[], [], cache0, 0, ⟨[], []⟩⟩) f1) f2 := by
    simp only [ai_sort_files, hidx, List.foldl_cons, List.foldl_nil]
  have hstep1 := processFile_toContent env fp sbn sbl tm mf mb cache0 0 ⟨[], []⟩ f1 g1
    h1t hfp hai0 hg1 hfall1
  rcases hclass with ⟨tp, hrule, hcateq⟩ | ⟨craw, hrule, hca, hcateq⟩
  · -- first file classified by content_rule
    refine Or.inl ?_
    have hCC1 : contentClassify env fp tm mf cache0 1 ⟨[f1.id], []⟩ f1.id f1.name
        f1.mimeType meta1.md5 (cacheLookup meta1.md5 cache0)
        (if pyTruthy (cacheLookup meta1.md5 cache0) = true then "cache" else "") =
        ContentRes.done (some cat) "content_rule" (dinsert cache0 m cat) 1
          ⟨[f1.id], [f1.id]⟩ := by
      have h0 := contentClassify_contentRule env fp tm mf cache0 1 ⟨[f1.id], []⟩
        f1.id f1.name f1.mimeType meta1.md5 (cacheLookup meta1.md5 cache0)
        (if pyTruthy (cacheLookup meta1.md5 cache0) = true then "cache" else "")
        data tp hmiss1 hai1 hdl htext hrule
      have hw : cacheWrite meta1.md5 (some tp.name) cache0 = dinsert cache0 m cat := by
        rw [hmd1, ← hcateq]
        exact cacheWrite_pos m cat cache0 hm0 hcat hnone
      rw [h0, hw, ← hcateq]
      rfl
    have hCS1 := contentStage_done_moved env fp sbn tm mf mb cache0 1 ⟨[f1.id], []⟩
      f1.id f1.name f1.mimeType meta1 cat "content_rule" (dinsert cache0 m cat) 1
      ⟨[f1.id], [f1.id]⟩ d res1 hm1 hsz1 hCC1 hcat hnone hdest hmv1
    rw [if_pos (show ("content_rule" : String) ≠ "" by decide),
      if_neg (show ¬ (("content_rule" : String) = "content_ai" ∨
        ("content_rule" : String) = "cache") by decide)] at hCS1
    have hR1 : runStep env fp sbn sbl tm mf mb
        (Except.ok ⟨[], [], cache0, 0, ⟨[], []⟩⟩) f1 =
        Except.ok ⟨[⟨res1.id.getD f1.id, res1.name.getD f1.name, d.name, some cat,
          "content_rule", none⟩], [], dinsert cache0 m cat, 1, ⟨[f1.id], [f1.id]⟩⟩ := by
      simp only [runStep]
      rw [hstep1]
      simp only [Nat.zero_add, List.nil_append, hCS1]
    have hstep2 := processFile_toContent env fp sbn sbl tm mf mb (dinsert cache0 m cat)
      1 ⟨[f1.id], [f1.id]⟩ f2 g2 h2t hfp hai1 hg2 hfall2
    have hCC2 : contentClassify env fp tm mf (dinsert cache0 m cat) (1 + 1)
        ⟨[f1.id, f2.id], [f1.id]⟩ f2.id f2.name f2.mimeType meta2.md5
        (cacheLookup meta2.md5 (dinsert cache0 m cat))
        (if pyTruthy (cacheLookup meta2.md5 (dinsert cache0 m cat)) = true then "cache"
          else "") =
        ContentRes.done (some cat) "cache" (dinsert cache0 m cat) (1 + 1)
          ⟨[f1.id, f2.id], [f1.id]⟩ := by
      rw [contentClassify_hit env fp tm mf (dinsert cache0 m cat) (1 + 1)
        ⟨[f1.id, f2.id], [f1.id]⟩ f2.id f2.name f2.mimeType meta2.md5
        (cacheLookup meta2.md5 (dinsert cache0 m cat))
        (if pyTruthy (cacheLookup meta2.md5 (dinsert cache0 m cat)) = true then "cache"
          else "") hhit2]
      rw [hlook2, if_pos (show pyTruthy (some cat) = true from decide_eq_true hcat)]
    have hCS2 := contentStage_done_moved env fp sbn tm mf mb (dinsert cache0 m cat)
      (1 + 1) ⟨[f1.id, f2.id], [f1.id]⟩ f2.id f2.name f2.mimeType meta2 cat "cache"
      (dinsert cache0 m cat) (1 + 1) ⟨[f1.id, f2.id], [f1.id]⟩ d res2
      hm2 hsz2 hCC2 hcat hnone hdest hmv2
    rw [if_pos (show ("cache" : String) ≠ "" by decide),
      if_pos (show ("cache" : String) = "content_ai" ∨ ("cache" : String) = "cache"
        from Or.inr rfl)] at hCS2
    rw [hrun, hR1]
    simp only [runStep]
    rw [hstep2]
    simp only [List.cons_append, List.nil_append, hCS2]
  · -- first file classified by content_ai
    refine Or.inr ?_
    have hempty : fp.isEmpty = false := by
      cases fp with
      | nil => exact absurd rfl hfp
      | cons a l => rfl
    have hCC1 : contentClassify env fp tm mf cache0 1 ⟨[f1.id], []⟩ f1.id f1.name
        f1.mimeType meta1.md5 (cacheLookup meta1.md5 cache0)
        (if pyTruthy (cacheLookup meta1.md5 cache0) = true then "cache" else "") =
        ContentRes.done (some cat) "content_ai" (dinsert cache0 m cat) (1 + 1)
          ⟨[f1.id, f1.id], [f1.id]⟩ := by
      have h0 := contentClassify_contentAI env fp tm mf cache0 1 ⟨[f1.id], []⟩
        f1.id f1.name f1.mimeType meta1.md5 (cacheLookup meta1.md5 cache0)
        (if pyTruthy (cacheLookup meta1.md5 cache0) = true then "cache" else "")
        data craw hmiss1 hai1 hdl htext hrule hfp hca
      have hw : cacheWrite meta1.md5 (some (pyStrip craw)) cache0 =
          dinsert cache0 m cat := by
        rw [hmd1, ← hcateq]
        exact cacheWrite_pos m cat cache0 hm0 hcat hnone
      rw [h0, hw, ← hcateq]
      rfl
    have hCS1 := contentStage_done_moved env fp sbn tm mf mb cache0 1 ⟨[f1.id], []⟩
      f1.id f1.name f1.mimeType meta1 cat "content_ai" (dinsert cache0 m cat) (1 + 1)
      ⟨[f1.id, f1.id], [f1.id]⟩ d res1 hm1 hsz1 hCC1 hcat hnone hdest hmv1
    rw [if_pos (show ("content_ai" : String) ≠ "" by decide),
      if_pos (show ("content_ai" : String) = "content_ai" ∨
        ("content_ai" : String) = "cache" from Or.inl rfl)] at hCS1
    have hR1 : runStep env fp sbn sbl tm mf mb
        (Except.ok ⟨[], [], cache0, 0, ⟨[], []⟩⟩) f1 =
        Except.ok ⟨[⟨res1.id.getD f1.id, res1.name.getD f1.name, d.name, some cat,
          "content_ai", some cat⟩], [], dinsert cache0 m cat, 2,
          ⟨[f1.id, f1.id], [f1.id]⟩⟩ := by
      simp only [runStep]
      rw [hstep1]
      simp only [Nat.zero_add, List.nil_append, hCS1]
    have hstep2 := processFile_toContent env fp sbn sbl tm mf mb (dinsert cache0 m cat)
      2 ⟨[f1.id, f1.id], [f1.id]⟩ f2 g2 h2t hfp hmf hg2 hfall2
    have hCC2 : contentClassify env fp tm mf (dinsert cache0 m cat) (2 + 1)
        ⟨[f1.id, f1.id, f2.id], [f1.id]⟩ f2.id f2.name f2.mimeType meta2.md5
        (cacheLookup meta2.md5 (dinsert cache0 m cat))
        (if pyTruthy (cacheLookup meta2.md5 (dinsert cache0 m cat)) = true then "cache"
          else "") =
        ContentRes.done (some cat) "cache" (dinsert cache0 m cat) (2 + 1)
          ⟨[f1.id, f1.id, f2.id], [f1.id]⟩ := by
      rw [contentClassify_hit env fp tm mf (dinsert cache0 m cat) (2 + 1)
        ⟨[f1.id, f1.id, f2.id], [f1.id]⟩ f2.id f2.name f2.mimeType meta2.md5
        (cacheLookup meta2.md5 (dinsert cache0 m cat))
        (if pyTruthy (cacheLookup meta2.md5 (dinsert cache0 m cat)) = true then "cache"
          else "") hhit2]
      rw [hlook2, if_pos (show pyTruthy (some cat) = true from decide_eq_true hcat)]
    have hCS2 := contentStage_done_moved env fp sbn tm mf mb (dinsert cache0 m cat)
      (2 + 1) ⟨[f1.id, f1.id, f2.id], [f1.id]⟩ f2.id f2.name f2.mimeType meta2 cat
      "cache" (dinsert cache0 m cat) (2 + 1) ⟨[f1.id, f1.id, f2.id], [f1.id]⟩ d res2
      hm2 hsz2 hCC2 hcat hnone hdest hmv2
    rw [if_pos (show ("cache" : String) ≠ "" by decide),
      if_pos (show ("cache" : String) = "content_ai" ∨ ("cache" : String) = "cache"
        from Or.inr rfl)] at hCS2
    rw [hrun, hR1]
    simp only [runStep]
    rw [hstep2]
    simp only [List.cons_append, List.nil_append, hCS2]

theorem c6_witness :
    ai_sort_files envC6 pbnC6 [⟨"d1", "Alpha"⟩]
      [⟨"f1", "a1.txt", "text/plain"⟩, ⟨"f2", "b2.txt", "text/plain"⟩] [] 2000 100 99 =
      Except.ok runC6val ∨
    ai_sort_files envC6 pbnC6 [⟨"d1", "Alpha"⟩]
      [⟨"f1", "a1.txt", "text/plain"⟩, ⟨"f2", "b2.txt", "text/plain"⟩] [] 2000 100 99 =
      Except.ok ⟨[⟨"f1", "a1.txt", "Alpha", some "Alpha", "content_ai", some "Alpha"⟩,
        ⟨"f2", "b2.txt", "Alpha", some "Alpha", "cache", some "Alpha"⟩],
        [], [("h", "Alpha")], 3, ⟨["f1", "f1", "f2"], ["f1"]⟩⟩ :=
  c6_amended envC6 pbnC6 [⟨"d1", "Alpha"⟩] fpC6 sbnC6 sbnC6
    ⟨"f1", "a1.txt", "text/plain"⟩ ⟨"f2", "b2.txt", "text/plain"⟩ [] 2000 100 99
    ⟨some 5, some "h"⟩ ⟨some 5, some "h"⟩ "h" "NONE" "NONE" [9] "Alpha"
    ⟨"d1", "Alpha", "", ["alpha"], []⟩ ⟨none, none⟩ ⟨none, none⟩
    (by decide) (by decide) (by decide) (by decide) (by decide) (by decide)
    (Or.inr (Or.inl (by decide))) (by decide) (Or.inr (Or.inl (by decide)))
    rfl rfl (by decide) (by decide) rfl rfl (by decide)
    (Or.inl ⟨⟨"d1", "Alpha", "", ["alpha"], []⟩, by decide, by decide⟩)
    (by decide) (by decide) (by decide) rfl rfl rfl (by decide) rfl

end DAS
